import Mathlib

/-!
Shallow embedding of the PACE scheduling engine, `src/lib/scheduler.ts`.

Modelling conventions:
* JS `number` values are modelled as exact rationals `ℚ`; the literals
  `0.3`, `0.5`, `0.6` of the source are the corresponding rationals.
* `Date` values are modelled as rational minutes since local midnight of the
  reference day `config.date` (DST ignored).  date-fns `addMinutes` adds the
  amount exactly; `differenceInMinutes` truncates the minute difference
  toward zero; `Date.prototype.getHours` is the floored hour of day mod 24.
* The config strings `wakeTime`/`targetSleepTime` ("HH:mm") are represented by
  their parsed hour/minute fields; `parseTime` is `setMinutes(setHours(d,h),m)`
  on the reference midnight, i.e. `h*60+m` minutes.
* `generateId` reads ambient state (`Date.now()`, `Math.random()`); it is
  modelled by a generator parameter `g : ℕ → String` supplying the id of the
  k-th block created (the source calls `generateId()` once per block pushed,
  in creation order).
* `Math.round` rounds half toward +∞; `Number.prototype.toFixed(1)` negates
  first and rounds the magnitude (ties toward the larger digit string).
-/

set_option maxRecDepth 100000

namespace Pace

/-- Floor of a rational as an integer (`q.den` is positive, so flooring the
exact fraction is `Int.fdiv` of numerator by denominator). -/
def ratFloor (q : ℚ) : ℤ :=
  q.num.fdiv q.den

/-- JS `Math.trunc` / integer conversion: truncation toward zero
(`Int.tdiv` truncates toward zero and `q.den` is positive). -/
def jsTrunc (q : ℚ) : ℤ :=
  q.num.tdiv q.den

/-- JS `Math.round`: round half toward positive infinity. -/
def jsRound (q : ℚ) : ℤ :=
  ratFloor (q + 1 / 2)

/-- JS `Math.abs` on rationals. -/
def mathAbs (q : ℚ) : ℚ :=
  if q < 0 then -q else q

/-- JS `Math.min` on rationals. -/
def mathMin (a b : ℚ) : ℚ :=
  if a ≤ b then a else b

/-- JS `Math.min` on integer minute counts. -/
def mathMinI (a b : ℤ) : ℤ :=
  if a ≤ b then a else b

/-- date-fns `addMinutes` (v3/v4): exact addition of minutes. -/
def addMinutes (t amount : ℚ) : ℚ :=
  t + amount

/-- date-fns `differenceInMinutes dateLeft dateRight`: the number of full
minutes between the two dates, truncated toward zero. -/
def differenceInMinutes (dateLeft dateRight : ℚ) : ℤ :=
  jsTrunc (dateLeft - dateRight)

/-- `Date.prototype.getHours`: local hour of day, 0..23. -/
def jsGetHours (t : ℚ) : ℤ :=
  ratFloor (t / 60) % 24

/-- Digit string `a.b` for a number of non-negative tenths. -/
def fmtTenthNat (n : ℕ) : String :=
  toString (n / 10) ++ "." ++ toString (n % 10)

/-- JS `Number.prototype.toFixed(1)`. -/
def toFixed1 (q : ℚ) : String :=
  if q < 0 then "-" ++ fmtTenthNat (jsRound (-q * 10)).toNat
  else fmtTenthNat (jsRound (q * 10)).toNat

/-- JS default number-to-string conversion, for the values interpolated into
template strings here (integers, or fractions whose denominator divides 10,
such as `6.5`, `7.5`, `0.5`). -/
def jsNumFmt (q : ℚ) : String :=
  if q.den = 1 then toString q.num
  else (if q < 0 then "-" else "") ++
    toString (q.num.natAbs / q.den) ++ "." ++ toString (q.num.natAbs * 10 / q.den % 10)

/-- `export type Intensity = "low" | "medium" | "high"` -/
inductive Intensity where
  | low
  | medium
  | high
deriving DecidableEq, Repr

/-- `export type BlockType` (the `break` variant is spelled `break_`). -/
inductive BlockType where
  | work
  | essential
  | break_
  | phone
  | social
  | leisure
  | sleep
  | meal
  | movement
deriving DecidableEq, Repr

/-- `export interface Task` -/
structure Task where
  id : String
  title : String
  type : BlockType
  estimatedMinutes : ℚ
  isFlexible : Bool
  minHours : Option ℚ
  maxHours : Option ℚ
deriving DecidableEq, Repr

/-- The id-free payload of a `TimeBlock` (see `TimeBlock`).  The source field
`end` is spelled `end_`. -/
structure BlockData where
  start : ℚ
  end_ : ℚ
  label : String
  type : BlockType
  taskId : Option String
  isReduced : Bool
  originalMinutes : Option ℚ
deriving DecidableEq, Repr

/-- `export interface TimeBlock` -/
structure TimeBlock where
  id : String
  start : ℚ
  end_ : ℚ
  label : String
  type : BlockType
  taskId : Option String
  isReduced : Bool
  originalMinutes : Option ℚ
deriving DecidableEq, Repr

/-- `export interface ScheduleConfig`: the "HH:mm" strings are represented by
their parsed hour/minute fields, and the reference `date` is the time origin. -/
structure ScheduleConfig where
  wakeHour : ℕ
  wakeMin : ℕ
  sleepHour : ℕ
  sleepMin : ℕ
  intensity : Intensity
deriving DecidableEq, Repr

/-- `export interface ScheduleStats` -/
structure ScheduleStats where
  totalWorkMinutes : ℤ
  totalBreakMinutes : ℤ
  totalPhoneMinutes : ℤ
  totalLeisureMinutes : ℤ
  sleepHours : ℚ
  sleepReduced : Bool
deriving DecidableEq, Repr

/-- `export interface ScheduleResult` -/
structure ScheduleResult where
  blocks : List TimeBlock
  tradeoffs : List String
  warnings : List String
  stats : ScheduleStats
deriving DecidableEq, Repr

/-- `interface IntensityConfig` -/
structure IntensityConfig where
  breakDuration : ℚ
  breakFrequency : ℚ
  maxPhoneMinutes : ℚ
  maxLeisureMinutes : ℚ
  sleepReductionMinutes : ℚ
  minSleepHours : ℚ
deriving DecidableEq, Repr

/-- `const INTENSITY_CONFIG: Record<Intensity, IntensityConfig>` -/
def INTENSITY_CONFIG : Intensity → IntensityConfig
  | .low => ⟨20, 90, 60, 120, 0, 8⟩
  | .medium => ⟨15, 90, 30, 60, 0, 7.5⟩
  | .high => ⟨10, 120, 15, 30, 60, 6.5⟩

/-- `const DEFAULT_WORK_BLOCK = 90` -/
def DEFAULT_WORK_BLOCK : ℚ := 90

/-- `const MEAL_DURATION = 30` -/
def MEAL_DURATION : ℚ := 30

/-- `const MORNING_ROUTINE = 30` -/
def MORNING_ROUTINE : ℚ := 30

/-- `function calculateWorkDuration(task, intensity)` (scheduler.ts:137-162). -/
def calculateWorkDuration (task : Task) (intensity : Intensity) : ℚ :=
  match task.minHours, task.maxHours with
  | some mn, some mx =>
    let minMinutes := mn * 60
    let maxMinutes := mx * 60
    (match intensity with
     | .low => minMinutes
     | .medium => (jsRound ((minMinutes + maxMinutes) / 2) : ℚ)
     | .high => maxMinutes)
  | _, _ => DEFAULT_WORK_BLOCK

/-- `function parseTime(timeStr, date)` (scheduler.ts:172-175): sets hours and
minutes on the reference day, i.e. `h*60+m` minutes after its midnight. -/
def parseTime (hours minutes : ℕ) : ℚ :=
  (hours : ℚ) * 60 + (minutes : ℚ)

/-- All quantities computed by `generateSchedule` before block layout
(scheduler.ts:185-294).  The source mutates `totalBreakMinutes`,
`flexibleTime`, `targetSleep` and `availableMinutes` in place; the successive
values are recorded here as numbered fields (`flexible0` before reductions,
`flexible1` after the break reduction, `flexible2` after the sleep
reduction, `flexible3` after the phone allocation). -/
structure Accounting where
  wakeDate : ℚ
  targetSleep0 : ℚ
  availableMinutes0 : ℤ
  workTasks : List Task
  essentialTasks : List Task
  phoneTasks : List Task
  leisureTasks : List Task
  workDurations : List (Task × ℚ)
  totalWorkMinutes : ℚ
  totalEssentialMinutes : ℚ
  totalBreakMinutes0 : ℚ
  minimumRequired : ℚ
  flexible0 : ℚ
  breakReduction : ℚ
  totalBreakMinutes : ℚ
  breaksReduced : Bool
  flexible1 : ℚ
  sleepReduction : ℚ
  sleepReduced : Bool
  targetSleep : ℚ
  flexible2 : ℚ
  warnings : List String
  phoneMinutes : ℚ
  flexible3 : ℚ
  leisureMinutes : ℚ
  phoneReduced : Bool
  leisureReduced : Bool
  rangedWorkTasks : List (Task × ℚ)

/-- The over-allocation warning pushed at scheduler.ts:263-266, for the
current (final) value of `flexibleTime`. -/
def overAllocationWarning (flexibleTime : ℚ) : String :=
  "You have " ++ jsNumFmt ((((jsRound (flexibleTime / 60 * 10)).natAbs : ℚ)) / 10) ++
    "h more work than time allows. Consider removing a task or starting earlier."

/-- The accounting phase of `generateSchedule` (scheduler.ts:185-294). -/
def accounting (tasks : List Task) (config : ScheduleConfig) : Accounting :=
  let intensityConfig := INTENSITY_CONFIG config.intensity
  let wakeDate := parseTime config.wakeHour config.wakeMin
  let targetSleep0 := parseTime config.sleepHour config.sleepMin
  let availableMinutes0 := differenceInMinutes targetSleep0 wakeDate
  let workTasks := tasks.filter (fun t => t.type == BlockType.work)
  let essentialTasks := tasks.filter
    (fun t => t.type == BlockType.essential || t.type == BlockType.movement)
  let phoneTasks := tasks.filter
    (fun t => t.type == BlockType.phone || t.type == BlockType.social)
  let leisureTasks := tasks.filter (fun t => t.type == BlockType.leisure)
  let workDurations := workTasks.map
    (fun task => (task, calculateWorkDuration task config.intensity))
  let totalWorkMinutes := (workDurations.map (fun wd => wd.2)).sum
  let workBlocksNeeded := workTasks.length
  let totalEssentialMinutes := (essentialTasks.map (fun t => t.estimatedMinutes)).sum
  let breaksNeeded := max 0 workBlocksNeeded
  let totalBreakMinutes0 : ℚ := (breaksNeeded : ℚ) * intensityConfig.breakDuration
  let fixedTime := MORNING_ROUTINE + MEAL_DURATION
  let minimumRequired :=
    totalWorkMinutes + totalEssentialMinutes + totalBreakMinutes0 + fixedTime
  let flexible0 := (availableMinutes0 : ℚ) - minimumRequired
  let maxBreakReduction := totalBreakMinutes0 * 0.5
  let breakReduction := if flexible0 < 0 then mathMin (mathAbs flexible0) maxBreakReduction else 0
  let totalBreakMinutes := totalBreakMinutes0 - breakReduction
  let breaksReduced : Bool := decide (0 < breakReduction)
  let flexible1 := flexible0 + breakReduction
  let maxSleepReduction := intensityConfig.sleepReductionMinutes
  let sleepReduction :=
    if flexible0 < 0 ∧ flexible1 < 0 ∧ config.intensity = Intensity.high then
      mathMin (mathAbs flexible1) maxSleepReduction
    else 0
  let sleepReduced : Bool := decide (0 < sleepReduction)
  let targetSleep := addMinutes targetSleep0 sleepReduction
  let flexible2 := flexible1 + sleepReduction
  let warnings :=
    if flexible0 < 0 ∧ flexible2 < 0 then [overAllocationWarning flexible2] else []
  let phoneMinutes :=
    if 0 < flexible2 then mathMin intensityConfig.maxPhoneMinutes (flexible2 * 0.3) else 0
  let flexible3 := if 0 < flexible2 then flexible2 - phoneMinutes else flexible2
  let leisureMinutes :=
    if 0 < flexible2 then mathMin intensityConfig.maxLeisureMinutes (flexible3 * 0.5) else 0
  let phoneReduced : Bool := decide (0 < phoneTasks.length ∧ phoneMinutes < 30)
  let leisureReduced : Bool := decide (0 < leisureTasks.length ∧ leisureMinutes < 30)
  let rangedWorkTasks := workDurations.filter
    (fun wd => wd.1.minHours.isSome && wd.1.maxHours.isSome)
  ⟨wakeDate, targetSleep0, availableMinutes0, workTasks, essentialTasks, phoneTasks,
    leisureTasks, workDurations, totalWorkMinutes, totalEssentialMinutes,
    totalBreakMinutes0, minimumRequired, flexible0, breakReduction, totalBreakMinutes,
    breaksReduced, flexible1, sleepReduction, sleepReduced, targetSleep, flexible2,
    warnings, phoneMinutes, flexible3, leisureMinutes, phoneReduced, leisureReduced,
    rangedWorkTasks⟩

/-- The work-range tradeoff message pushed per intensity when at least one
work task declares a min/max range (scheduler.ts:299-301, 322-324, 330-332). -/
def rangeTradeoffMessage : Intensity → String
  | Intensity.high => "⏰ Work time ranges set to maximum for maximum productivity."
  | Intensity.medium => "⏰ Work time ranges set to midpoint for balance."
  | Intensity.low => "⏰ Work time ranges set to minimum — more time for you."

/-- The tradeoff messages (scheduler.ts:296-333). -/
def tradeoffMessages (config : ScheduleConfig) (A : Accounting) : List String :=
  let intensityConfig := INTENSITY_CONFIG config.intensity
  match config.intensity with
  | Intensity.high =>
    ["🔥 High intensity mode. Work blocks are fully protected."] ++
    (if 0 < A.rangedWorkTasks.length then
      [rangeTradeoffMessage Intensity.high] else []) ++
    (if A.breaksReduced then
      ["⏱️ Breaks shortened to maximize productive time."] else []) ++
    (if A.phoneReduced || decide (0 < A.phoneTasks.length) then
      ["📱 Phone/social time minimized."] else []) ++
    (if A.leisureReduced || decide (0 < A.leisureTasks.length) then
      ["🎮 Leisure time reduced to protect work."] else []) ++
    (if A.sleepReduced then
      [let sleepHours : ℚ :=
        ((differenceInMinutes (addMinutes A.wakeDate (24 * 60)) A.targetSleep : ℚ)) / 60
       "😴 Sleep adjusted to " ++ toFixed1 sleepHours ++ "h (minimum " ++
         jsNumFmt intensityConfig.minSleepHours ++ "h protected)."] else [])
  | Intensity.medium =>
    ["⚡ Medium intensity. Balanced schedule with focused work time."] ++
    (if 0 < A.rangedWorkTasks.length then
      [rangeTradeoffMessage Intensity.medium] else []) ++
    (if A.phoneReduced then ["📱 Phone time slightly limited."] else [])
  | Intensity.low =>
    ["🌿 Low intensity day. Full recovery and balance prioritized."] ++
    (if 0 < A.rangedWorkTasks.length then
      [rangeTradeoffMessage Intensity.low] else [])

/-- Layout cursor state: the block list built so far and `currentTime`
(scheduler.ts:339).  Block ids are attached afterwards, see `generateSchedule`. -/
structure LayoutState where
  blocks : List BlockData
  currentTime : ℚ
deriving Repr

/-- `blocks.push(...)` of a block starting at the cursor, followed by
`currentTime = addMinutes(currentTime, dur)` — the shape of every push in the
layout section except the final sleep block. -/
def pushBlock (st : LayoutState) (dur : ℚ) (label : String) (ty : BlockType)
    (taskId : Option String) (isReduced : Bool) (originalMinutes : Option ℚ) :
    LayoutState :=
  ⟨st.blocks ++
    [⟨st.currentTime, addMinutes st.currentTime dur, label, ty, taskId, isReduced,
      originalMinutes⟩],
    addMinutes st.currentTime dur⟩

/-- `blocks.some(b => b.label === "Lunch")` -/
def hasLunch (bs : List BlockData) : Bool :=
  bs.any (fun b => b.label == "Lunch")

/-- The conditional lunch insertion at the top of the work loop
(scheduler.ts:357-369). -/
def maybeLunch (st : LayoutState) : LayoutState :=
  if 12 ≤ jsGetHours st.currentTime ∧ jsGetHours st.currentTime < 14 ∧
      hasLunch st.blocks = false then
    pushBlock st MEAL_DURATION "Lunch" BlockType.meal none false none
  else st

/-- The `workDurations.forEach` loop (scheduler.ts:356-405): optional lunch,
then the work block, then — except after the last work task — a break of
`adjustedBreak` minutes.  `bd` is the (possibly reduced) layout break
duration, `bdNominal` the intensity's nominal break duration and `br` the
`breaksReduced` flag. -/
def scheduleWork (bd bdNominal : ℚ) (br : Bool) :
    List (Task × ℚ) → LayoutState → LayoutState
  | [], st => st
  | (task, duration) :: rest, st =>
    let st1 := maybeLunch st
    let hasRange := task.minHours.isSome && task.maxHours.isSome
    let blockLabel :=
      if hasRange then task.title ++ " (" ++ toFixed1 (duration / 60) ++ "h)"
      else task.title
    let st2 := pushBlock st1 duration blockLabel BlockType.work (some task.id) false none
    let adjustedBreak := if 120 < duration then bd + 5 else bd
    let st3 :=
      if rest.isEmpty then st2
      else pushBlock st2 adjustedBreak "Break" BlockType.break_ none br
        (if br then some bdNominal else none)
    scheduleWork bd bdNominal br rest st3

/-- The `essentialTasks.forEach` loop (scheduler.ts:421-432). -/
def scheduleEssentials : List Task → LayoutState → LayoutState
  | [], st => st
  | task :: rest, st =>
    scheduleEssentials rest
      (pushBlock st task.estimatedMinutes task.title task.type (some task.id) false none)

/-- The layout-phase break length (scheduler.ts:340-342): when breaks were
reduced, `Math.round(breakDuration * 0.6)`, else the nominal break duration. -/
def layoutBreakDuration (config : ScheduleConfig) (A : Accounting) : ℚ :=
  if A.breaksReduced then
    (jsRound ((INTENSITY_CONFIG config.intensity).breakDuration * 0.6) : ℚ)
  else (INTENSITY_CONFIG config.intensity).breakDuration

/-- The block-layout section of `generateSchedule` up to (excluding) the sleep
block (scheduler.ts:339-476). -/
def layoutBlocks (tasks : List Task) (config : ScheduleConfig) : LayoutState :=
  let intensityConfig := INTENSITY_CONFIG config.intensity
  let A := accounting tasks config
  let breakDuration : ℚ := layoutBreakDuration config A
  let st0 : LayoutState := ⟨[], A.wakeDate⟩
  let st1 := pushBlock st0 MORNING_ROUTINE "Morning Routine" BlockType.essential
    none false none
  let st2 := scheduleWork breakDuration intensityConfig.breakDuration A.breaksReduced
    A.workDurations st1
  let st3 :=
    if hasLunch st2.blocks then st2
    else pushBlock st2 MEAL_DURATION "Lunch" BlockType.meal none false none
  let st4 := scheduleEssentials A.essentialTasks st3
  let st5 :=
    if 10 ≤ A.phoneMinutes then
      pushBlock st4 A.phoneMinutes
        (match A.phoneTasks with | [] => "Phone / Social Time" | t :: _ => t.title)
        BlockType.phone none A.phoneReduced
        (if A.phoneReduced then
          (if 0 < A.phoneTasks.length then some 60 else none) else none)
    else st4
  let st6 :=
    if 15 ≤ A.leisureMinutes then
      pushBlock st5 A.leisureMinutes
        (match A.leisureTasks with | [] => "Free Time" | t :: _ => t.title)
        BlockType.leisure none A.leisureReduced
        (if A.leisureReduced then
          (if 0 < A.leisureTasks.length then some 60 else none) else none)
    else st5
  let timeUntilSleep := differenceInMinutes A.targetSleep st6.currentTime
  if 15 < timeUntilSleep then
    pushBlock st6 ((mathMinI 30 timeUntilSleep : ℤ) : ℚ) "Evening Wind-down"
      BlockType.leisure none false none
  else st6

/-- Sum of `differenceInMinutes(b.end, b.start)` over the blocks whose type
satisfies `p` — the shape of the four stat sums (scheduler.ts:493-501). -/
def statSum (bs : List BlockData) (p : BlockType → Bool) : ℤ :=
  ((bs.filter (fun b => p b.type)).map
    (fun b => differenceInMinutes b.end_ b.start)).sum

/-- Attaching a generated id to a laid-out block. -/
def attachId (id : String) (b : BlockData) : TimeBlock :=
  ⟨id, b.start, b.end_, b.label, b.type, b.taskId, b.isReduced, b.originalMinutes⟩

/-- The final sleep block (scheduler.ts:479-490): it starts at the layout
cursor and ends at `wakeDate + 24h`, regardless of the cursor position. -/
def sleepData (tasks : List Task) (config : ScheduleConfig) : BlockData :=
  let A := accounting tasks config
  let st := layoutBlocks tasks config
  let nextDayWake := addMinutes A.wakeDate (24 * 60)
  let actualSleepMinutes := differenceInMinutes nextDayWake st.currentTime
  let actualSleepHours : ℚ := (actualSleepMinutes : ℚ) / 60
  ⟨st.currentTime, nextDayWake, "Sleep (" ++ toFixed1 actualSleepHours ++ "h)",
    BlockType.sleep, none, A.sleepReduced, none⟩

/-- The complete laid-out block list of a run, before ids are attached. -/
def allBlocksData (tasks : List Task) (config : ScheduleConfig) : List BlockData :=
  (layoutBlocks tasks config).blocks ++ [sleepData tasks config]

/-- `export function generateSchedule(tasks, config)` (scheduler.ts:181-512).
The id generator `g` supplies the value of the k-th `generateId()` call; the
stats are computed from the final block list exactly as in the source (ids do
not enter any stat). -/
def generateSchedule (g : ℕ → String) (tasks : List Task)
    (config : ScheduleConfig) : ScheduleResult :=
  let A := accounting tasks config
  let st := layoutBlocks tasks config
  let nextDayWake := addMinutes A.wakeDate (24 * 60)
  let actualSleepMinutes := differenceInMinutes nextDayWake st.currentTime
  let actualSleepHours : ℚ := (actualSleepMinutes : ℚ) / 60
  let sleepBlock : BlockData :=
    ⟨st.currentTime, nextDayWake, "Sleep (" ++ toFixed1 actualSleepHours ++ "h)",
      BlockType.sleep, none, A.sleepReduced, none⟩
  let allBlocks := st.blocks ++ [sleepBlock]
  let blocks := allBlocks.enum.map (fun p => attachId (g p.1) p.2)
  let stats : ScheduleStats :=
    ⟨statSum allBlocks (fun t => t == BlockType.work),
      statSum allBlocks (fun t => t == BlockType.break_),
      statSum allBlocks (fun t => t == BlockType.phone || t == BlockType.social),
      statSum allBlocks (fun t => t == BlockType.leisure),
      actualSleepHours, A.sleepReduced⟩
  ⟨blocks, tradeoffMessages config A, A.warnings, stats⟩

/-- Forgetting the (randomly generated) id of a block. -/
def stripBlock (b : TimeBlock) : BlockData :=
  ⟨b.start, b.end_, b.label, b.type, b.taskId, b.isReduced, b.originalMinutes⟩

/-- Projection of the blocks whose type satisfies `p`, in schedule order. -/
def typedInfos {α : Type} (p : BlockType → Bool) (f : BlockData → α)
    (bs : List BlockData) : List α :=
  (bs.filter (fun b => p b.type)).map f

/-- Duration, `isReduced` flag and `taskId` of every work-typed block, in
schedule order. -/
def workInfos (bs : List BlockData) : List (ℚ × Bool × Option String) :=
  typedInfos (fun ty => ty == BlockType.work)
    (fun b => (b.end_ - b.start, b.isReduced, b.taskId)) bs

/-- Duration, `isReduced` flag and `originalMinutes` of every break-typed
block, in schedule order. -/
def breakInfos (bs : List BlockData) : List (ℚ × Bool × Option ℚ) :=
  typedInfos (fun ty => ty == BlockType.break_)
    (fun b => (b.end_ - b.start, b.isReduced, b.originalMinutes)) bs

/-- Durations of the essential/movement-typed blocks, in schedule order. -/
def essInfos (bs : List BlockData) : List ℚ :=
  typedInfos (fun ty => ty == BlockType.essential || ty == BlockType.movement)
    (fun b => b.end_ - b.start) bs

/-- Invariant of the layout cursor: the block list starts at the wake time, is
contiguous (each block ends where the next starts), and ends exactly at the
current cursor position. -/
def Laid (wake : ℚ) (st : LayoutState) : Prop :=
  st.blocks.head?.map BlockData.start = some wake ∧
  List.Chain' (fun a b => a.end_ = b.start) st.blocks ∧
  st.blocks.getLast?.map BlockData.end_ = some st.currentTime

/-- Invariant: every block laid out so far has a strictly positive duration. -/
def AllPos (st : LayoutState) : Prop :=
  ∀ b ∈ st.blocks, b.start < b.end_

/-- Two tasks that the scheduler cannot distinguish: they agree on every field
the scheduler reads (`id`, `title`, `type`, `minHours`, `maxHours`, and
`estimatedMinutes` except on work tasks, where `calculateWorkDuration` ignores
it); `isFlexible` is never read by the scheduler. -/
def SchedulerEquivalent (t₁ t₂ : Task) : Prop :=
  t₁.id = t₂.id ∧ t₁.title = t₂.title ∧ t₁.type = t₂.type ∧
  t₁.minHours = t₂.minHours ∧ t₁.maxHours = t₂.maxHours ∧
  (t₁.type = BlockType.work ∨ t₁.estimatedMinutes = t₂.estimatedMinutes)

instance : ∀ t₁ t₂, Decidable (SchedulerEquivalent t₁ t₂) := by
  unfold SchedulerEquivalent; infer_instance

/-- A fixed id supply used to instantiate the generator in concrete runs. -/
def idGen (n : ℕ) : String := toString n

/-- Wake 07:00, target sleep 23:00, low intensity (spec scenario A). -/
def exCfgLow : ScheduleConfig := ⟨7, 0, 23, 0, Intensity.low⟩

/-- Wake 07:00, target sleep 23:00, medium intensity. -/
def exCfgMedium : ScheduleConfig := ⟨7, 0, 23, 0, Intensity.medium⟩

/-- Wake 07:00, target sleep 23:00, high intensity. -/
def exCfgHigh : ScheduleConfig := ⟨7, 0, 23, 0, Intensity.high⟩

/-- A work task declaring an 18-18 hour range (duration 1080 min at high). -/
def exWork18 : Task := ⟨"w18", "Deep Work", BlockType.work, 90, false, some 18, some 18⟩

/-- A work task declaring a 26-26 hour range (duration 1560 min at high). -/
def exWork26 : Task := ⟨"w26", "Mega Project", BlockType.work, 90, false, some 26, some 26⟩

/-- A work task declaring a 2-2 hour range. -/
def exWork2a : Task := ⟨"w2a", "Work A", BlockType.work, 90, false, some 2, some 2⟩

/-- A second work task declaring a 2-2 hour range. -/
def exWork2b : Task := ⟨"w2b", "Work B", BlockType.work, 90, false, some 2, some 2⟩

/-- An essential task of 700 minutes. -/
def exEssential700 : Task := ⟨"e700", "Chores", BlockType.essential, 700, true, none, none⟩

/-- The spec scenario D work task: `minHours = 2`, `maxHours = 4`. -/
def exRange24 : Task := ⟨"d1", "Project", BlockType.work, 90, false, some 2, some 4⟩

/-- C3: the claimed 6.5-hour sleep floor at high intensity is violated by the
code.  One 18-hour work task in a 07:00-23:00 window at high intensity yields
a final sleep block of 300 minutes (5.0h), below the configured
`minSleepHours * 60 = 390` floor — even though sleep borrowing was applied
and the run itself emits the tradeoff "minimum 6.5h protected". -/
theorem c3_sleep_floor_violated :
    ((generateSchedule idGen [exWork18] exCfgHigh).blocks.getLast?.map
        (fun b => b.end_ - b.start) = some 300) ∧
    (generateSchedule idGen [exWork18] exCfgHigh).stats.sleepReduced = true ∧
    "😴 Sleep adjusted to 7.0h (minimum 6.5h protected)." ∈
      (generateSchedule idGen [exWork18] exCfgHigh).tradeoffs ∧
    (300 : ℚ) < (INTENSITY_CONFIG Intensity.high).minSleepHours * 60 :=
  of_decide_eq_true (by with_unfolding_all rfl)

/-- C4 counterexample: a run in which both breaks and sleep are reduced, yet
the single break block is laid out at 6 minutes — `round(0.6 * 10)` — not at
the claimed 50% floor of `10 * 0.5 = 5` minutes. -/
theorem c4_break_not_half :
    ((generateSchedule idGen [exWork2a, exWork2b, exEssential700] exCfgHigh).blocks.filter
        (fun b => b.type == BlockType.break_)).map
        (fun b => (b.end_ - b.start, b.isReduced, b.originalMinutes)) =
      [(6, true, some 10)] ∧
    (accounting [exWork2a, exWork2b, exEssential700] exCfgHigh).sleepReduced = true ∧
    (accounting [exWork2a, exWork2b, exEssential700] exCfgHigh).breaksReduced = true ∧
    ¬ (6 : ℚ) = (INTENSITY_CONFIG Intensity.high).breakDuration * 0.5 :=
  of_decide_eq_true (by with_unfolding_all rfl)

/-- C5 counterexample: with zero tasks, wake 07:00, sleep 23:00 and low
intensity the output has six blocks, not the claimed three. -/
theorem c5_not_three_blocks :
    (generateSchedule idGen [] exCfgLow).blocks.length = 6 ∧
    ¬ (generateSchedule idGen [] exCfgLow).blocks.length = 3 :=
  of_decide_eq_true (by with_unfolding_all rfl)

/-- C5 amended: with zero tasks, wake 07:00, sleep 23:00 and low intensity the
output is exactly: morning routine (07:00-07:30), lunch (07:30-08:00), 60 min
phone/social time, 120 min free time, a 30 min evening wind-down, and a sleep
block running to the next wake (19.5h); the warning list is empty. -/
theorem c5_zero_tasks_schedule :
    (generateSchedule idGen [] exCfgLow).blocks.map
        (fun b => (b.label, b.type, b.start, b.end_)) =
      [("Morning Routine", BlockType.essential, 420, 450),
       ("Lunch", BlockType.meal, 450, 480),
       ("Phone / Social Time", BlockType.phone, 480, 540),
       ("Free Time", BlockType.leisure, 540, 660),
       ("Evening Wind-down", BlockType.leisure, 660, 690),
       ("Sleep (19.5h)", BlockType.sleep, 690, 1860)] ∧
    (generateSchedule idGen [] exCfgLow).warnings = [] :=
  of_decide_eq_true (by with_unfolding_all rfl)

/-- C8 counterexample: a heavily over-allocated day (one 26-hour work task at
high intensity) produces a final sleep block whose end (wake + 24h = minute
1860) lies strictly before its start (minute 2040), so not every block
satisfies `start < end`. -/
theorem c8_sleep_block_inverted :
    ((generateSchedule idGen [exWork26] exCfgHigh).blocks.getLast?.map
        (fun b => (b.type, b.start, b.end_)) =
      some (BlockType.sleep, 2040, 1860)) ∧
    ¬ ∀ b ∈ (generateSchedule idGen [exWork26] exCfgHigh).blocks, b.start < b.end_ :=
  of_decide_eq_true (by with_unfolding_all rfl)

theorem accounting_workTasks (tasks : List Task) (cfg : ScheduleConfig) :
    (accounting tasks cfg).workTasks =
      tasks.filter (fun t => t.type == BlockType.work) := rfl

theorem accounting_essentialTasks (tasks : List Task) (cfg : ScheduleConfig) :
    (accounting tasks cfg).essentialTasks =
      tasks.filter
        (fun t => t.type == BlockType.essential || t.type == BlockType.movement) := rfl

theorem accounting_workDurations (tasks : List Task) (cfg : ScheduleConfig) :
    (accounting tasks cfg).workDurations =
      (tasks.filter (fun t => t.type == BlockType.work)).map
        (fun task => (task, calculateWorkDuration task cfg.intensity)) := rfl

theorem accounting_wakeDate (tasks : List Task) (cfg : ScheduleConfig) :
    (accounting tasks cfg).wakeDate = parseTime cfg.wakeHour cfg.wakeMin := rfl

theorem generateSchedule_blocks (g : ℕ → String) (tasks : List Task)
    (cfg : ScheduleConfig) :
    (generateSchedule g tasks cfg).blocks =
      (allBlocksData tasks cfg).enum.map (fun p => attachId (g p.1) p.2) := rfl

theorem generateSchedule_warnings (g : ℕ → String) (tasks : List Task)
    (cfg : ScheduleConfig) :
    (generateSchedule g tasks cfg).warnings = (accounting tasks cfg).warnings := rfl

theorem generateSchedule_tradeoffs (g : ℕ → String) (tasks : List Task)
    (cfg : ScheduleConfig) :
    (generateSchedule g tasks cfg).tradeoffs =
      tradeoffMessages cfg (accounting tasks cfg) := rfl

theorem stripBlock_attachId (i : String) (b : BlockData) :
    stripBlock (attachId i b) = b := rfl

theorem map_attach_strip (g : ℕ → String) (n : ℕ) (l : List BlockData) :
    ((List.enumFrom n l).map (fun p => attachId (g p.1) p.2)).map stripBlock = l := by
  induction l generalizing n with
  | nil => rfl
  | cons b bs ih => simp [List.enumFrom, ih, stripBlock_attachId]

theorem blocks_map_strip (g : ℕ → String) (tasks : List Task) (cfg : ScheduleConfig) :
    ((generateSchedule g tasks cfg).blocks).map stripBlock = allBlocksData tasks cfg := by
  rw [generateSchedule_blocks]
  exact map_attach_strip g 0 _

theorem typedInfos_append {α : Type} (p : BlockType → Bool) (f : BlockData → α)
    (bs cs : List BlockData) :
    typedInfos p f (bs ++ cs) = typedInfos p f bs ++ typedInfos p f cs := by
  simp [typedInfos]

theorem typedInfos_push_true {α : Type} (p : BlockType → Bool) (f : BlockData → α)
    (st : LayoutState) (d : ℚ) (lb : String) (ty : BlockType) (tid : Option String)
    (r : Bool) (o : Option ℚ) (h : p ty = true) :
    typedInfos p f (pushBlock st d lb ty tid r o).blocks =
      typedInfos p f st.blocks ++
        [f ⟨st.currentTime, addMinutes st.currentTime d, lb, ty, tid, r, o⟩] := by
  simp [typedInfos, pushBlock, h]

theorem typedInfos_push_false {α : Type} (p : BlockType → Bool) (f : BlockData → α)
    (st : LayoutState) (d : ℚ) (lb : String) (ty : BlockType) (tid : Option String)
    (r : Bool) (o : Option ℚ) (h : p ty = false) :
    typedInfos p f (pushBlock st d lb ty tid r o).blocks = typedInfos p f st.blocks := by
  simp [typedInfos, pushBlock, h]

theorem typedInfos_ite_push_false {α : Type} (p : BlockType → Bool) (f : BlockData → α)
    {c : Prop} [Decidable c] (st : LayoutState) (d : ℚ) (lb : String) (ty : BlockType)
    (tid : Option String) (r : Bool) (o : Option ℚ) (h : p ty = false) :
    typedInfos p f (if c then pushBlock st d lb ty tid r o else st).blocks =
      typedInfos p f st.blocks := by
  split
  · exact typedInfos_push_false p f st d lb ty tid r o h
  · rfl

theorem typedInfos_maybeLunch {α : Type} (p : BlockType → Bool) (f : BlockData → α)
    (st : LayoutState) (h : p BlockType.meal = false) :
    typedInfos p f (maybeLunch st).blocks = typedInfos p f st.blocks := by
  unfold maybeLunch
  exact typedInfos_ite_push_false p f st MEAL_DURATION "Lunch" BlockType.meal
    none false none h

theorem typedInfos_ite_skip_push {α : Type} (p : BlockType → Bool) (f : BlockData → α)
    {c : Prop} [Decidable c] (st : LayoutState) (d : ℚ) (lb : String) (ty : BlockType)
    (tid : Option String) (r : Bool) (o : Option ℚ) (h : p ty = false) :
    typedInfos p f (if c then st else pushBlock st d lb ty tid r o).blocks =
      typedInfos p f st.blocks := by
  split
  · rfl
  · exact typedInfos_push_false p f st d lb ty tid r o h

theorem essOrMov_ne_work {ty : BlockType}
    (h : (ty == BlockType.essential || ty == BlockType.movement) = true) :
    (ty == BlockType.work) = false := by
  cases ty <;> revert h <;> decide

theorem essOrMov_ne_break {ty : BlockType}
    (h : (ty == BlockType.essential || ty == BlockType.movement) = true) :
    (ty == BlockType.break_) = false := by
  cases ty <;> revert h <;> decide

theorem workInfos_scheduleWork (bd bn : ℚ) (br : Bool) (l : List (Task × ℚ))
    (st : LayoutState) :
    workInfos (scheduleWork bd bn br l st).blocks =
      workInfos st.blocks ++ l.map (fun wd => (wd.2, false, some wd.1.id)) := by
  induction l generalizing st with
  | nil => simp [scheduleWork]
  | cons hd rest ih =>
    obtain ⟨t, d⟩ := hd
    simp only [scheduleWork]
    rw [ih]
    simp only [workInfos]
    rw [typedInfos_ite_skip_push _ _ _ _ _ _ _ _ _ rfl,
      typedInfos_push_true _ _ _ _ _ _ _ _ _ rfl,
      typedInfos_maybeLunch _ _ _ rfl]
    simp [addMinutes, add_sub_cancel_left]

theorem breakInfos_scheduleWork (bd bn : ℚ) (br : Bool) (l : List (Task × ℚ))
    (st : LayoutState) :
    breakInfos (scheduleWork bd bn br l st).blocks =
      breakInfos st.blocks ++
        l.dropLast.map (fun wd =>
          ((if 120 < wd.2 then bd + 5 else bd), br,
            if br then some bn else none)) := by
  induction l generalizing st with
  | nil => simp [scheduleWork]
  | cons hd rest ih =>
    obtain ⟨t, d⟩ := hd
    simp only [scheduleWork]
    rw [ih]
    simp only [breakInfos]
    cases rest with
    | nil =>
      simp only [List.isEmpty_nil, if_true]
      rw [typedInfos_push_false _ _ _ _ _ _ _ _ _ rfl,
        typedInfos_maybeLunch _ _ _ rfl]
      simp
    | cons hd2 rest2 =>
      simp only [List.isEmpty_cons, Bool.false_eq_true, if_false]
      rw [typedInfos_push_true _ _ _ _ _ _ _ _ _ rfl,
        typedInfos_push_false _ _ _ _ _ _ _ _ _ rfl,
        typedInfos_maybeLunch _ _ _ rfl]
      simp [addMinutes, add_sub_cancel_left, List.dropLast_cons₂]

theorem essInfos_scheduleWork (bd bn : ℚ) (br : Bool) (l : List (Task × ℚ))
    (st : LayoutState) :
    essInfos (scheduleWork bd bn br l st).blocks = essInfos st.blocks := by
  induction l generalizing st with
  | nil => simp [scheduleWork]
  | cons hd rest ih =>
    obtain ⟨t, d⟩ := hd
    simp only [scheduleWork]
    rw [ih]
    simp only [essInfos]
    rw [typedInfos_ite_skip_push _ _ _ _ _ _ _ _ _ rfl,
      typedInfos_push_false _ _ _ _ _ _ _ _ _ rfl,
      typedInfos_maybeLunch _ _ _ rfl]

theorem workInfos_scheduleEssentials (l : List Task) (st : LayoutState)
    (h : ∀ t ∈ l, (t.type == BlockType.work) = false) :
    workInfos (scheduleEssentials l st).blocks = workInfos st.blocks := by
  induction l generalizing st with
  | nil => rfl
  | cons t rest ih =>
    simp only [scheduleEssentials]
    rw [ih _ (fun u hu => h u (List.mem_cons_of_mem _ hu))]
    exact typedInfos_push_false _ _ _ _ _ _ _ _ _ (h t (List.mem_cons_self t rest))

theorem breakInfos_scheduleEssentials (l : List Task) (st : LayoutState)
    (h : ∀ t ∈ l, (t.type == BlockType.break_) = false) :
    breakInfos (scheduleEssentials l st).blocks = breakInfos st.blocks := by
  induction l generalizing st with
  | nil => rfl
  | cons t rest ih =>
    simp only [scheduleEssentials]
    rw [ih _ (fun u hu => h u (List.mem_cons_of_mem _ hu))]
    exact typedInfos_push_false _ _ _ _ _ _ _ _ _ (h t (List.mem_cons_self t rest))

theorem essInfos_scheduleEssentials (l : List Task) (st : LayoutState)
    (h : ∀ t ∈ l,
      (t.type == BlockType.essential || t.type == BlockType.movement) = true) :
    essInfos (scheduleEssentials l st).blocks =
      essInfos st.blocks ++ l.map (fun t => t.estimatedMinutes) := by
  induction l generalizing st with
  | nil => simp [scheduleEssentials]
  | cons t rest ih =>
    simp only [scheduleEssentials]
    rw [ih _ (fun u hu => h u (List.mem_cons_of_mem _ hu))]
    simp only [essInfos]
    rw [typedInfos_push_true _ _ _ _ _ _ _ _ _ (h t (List.mem_cons_self t rest))]
    simp [addMinutes, add_sub_cancel_left]

theorem mem_essentialTasks {tasks : List Task} {cfg : ScheduleConfig} {t : Task}
    (ht : t ∈ (accounting tasks cfg).essentialTasks) :
    (t.type == BlockType.essential || t.type == BlockType.movement) = true := by
  rw [accounting_essentialTasks] at ht
  exact (List.mem_filter.mp ht).2

theorem workInfos_layoutBlocks (tasks : List Task) (cfg : ScheduleConfig) :
    workInfos (layoutBlocks tasks cfg).blocks =
      (accounting tasks cfg).workDurations.map
        (fun wd => (wd.2, false, some wd.1.id)) := by
  simp only [layoutBlocks, workInfos]
  rw [typedInfos_ite_push_false _ _ _ _ _ _ _ _ _ rfl,
    typedInfos_ite_push_false _ _ _ _ _ _ _ _ _ rfl,
    typedInfos_ite_push_false _ _ _ _ _ _ _ _ _ rfl]
  rw [show ∀ st, typedInfos (fun ty => ty == BlockType.work)
      (fun b => (b.end_ - b.start, b.isReduced, b.taskId)) st = workInfos st from
    fun st => rfl]
  rw [workInfos_scheduleEssentials _ _
    (fun t ht => essOrMov_ne_work (mem_essentialTasks ht))]
  simp only [workInfos]
  rw [typedInfos_ite_skip_push _ _ _ _ _ _ _ _ _ rfl]
  rw [show ∀ st, typedInfos (fun ty => ty == BlockType.work)
      (fun b => (b.end_ - b.start, b.isReduced, b.taskId)) st = workInfos st from
    fun st => rfl]
  rw [workInfos_scheduleWork]
  simp only [workInfos]
  rw [typedInfos_push_false _ _ _ _ _ _ _ _ _ rfl]
  simp [typedInfos]

theorem breakInfos_layoutBlocks (tasks : List Task) (cfg : ScheduleConfig) :
    breakInfos (layoutBlocks tasks cfg).blocks =
      (accounting tasks cfg).workDurations.dropLast.map
        (fun wd =>
          ((if 120 < wd.2 then layoutBreakDuration cfg (accounting tasks cfg) + 5
            else layoutBreakDuration cfg (accounting tasks cfg)),
            (accounting tasks cfg).breaksReduced,
            if (accounting tasks cfg).breaksReduced then
              some (INTENSITY_CONFIG cfg.intensity).breakDuration
            else none)) := by
  simp only [layoutBlocks, breakInfos]
  rw [typedInfos_ite_push_false _ _ _ _ _ _ _ _ _ rfl,
    typedInfos_ite_push_false _ _ _ _ _ _ _ _ _ rfl,
    typedInfos_ite_push_false _ _ _ _ _ _ _ _ _ rfl]
  rw [show ∀ st, typedInfos (fun ty => ty == BlockType.break_)
      (fun b => (b.end_ - b.start, b.isReduced, b.originalMinutes)) st =
        breakInfos st from fun st => rfl]
  rw [breakInfos_scheduleEssentials _ _
    (fun t ht => essOrMov_ne_break (mem_essentialTasks ht))]
  simp only [breakInfos]
  rw [typedInfos_ite_skip_push _ _ _ _ _ _ _ _ _ rfl]
  rw [show ∀ st, typedInfos (fun ty => ty == BlockType.break_)
      (fun b => (b.end_ - b.start, b.isReduced, b.originalMinutes)) st =
        breakInfos st from fun st => rfl]
  rw [breakInfos_scheduleWork]
  simp only [breakInfos]
  rw [typedInfos_push_false _ _ _ _ _ _ _ _ _ rfl]
  simp [typedInfos]

theorem essInfos_layoutBlocks (tasks : List Task) (cfg : ScheduleConfig) :
    essInfos (layoutBlocks tasks cfg).blocks =
      MORNING_ROUTINE ::
        (accounting tasks cfg).essentialTasks.map (fun t => t.estimatedMinutes) := by
  simp only [layoutBlocks, essInfos]
  rw [typedInfos_ite_push_false _ _ _ _ _ _ _ _ _ rfl,
    typedInfos_ite_push_false _ _ _ _ _ _ _ _ _ rfl,
    typedInfos_ite_push_false _ _ _ _ _ _ _ _ _ rfl]
  rw [show ∀ st, typedInfos
      (fun ty => ty == BlockType.essential || ty == BlockType.movement)
      (fun b => b.end_ - b.start) st = essInfos st from fun st => rfl]
  rw [essInfos_scheduleEssentials _ _ (fun t ht => mem_essentialTasks ht)]
  simp only [essInfos]
  rw [typedInfos_ite_skip_push _ _ _ _ _ _ _ _ _ rfl]
  rw [show ∀ st, typedInfos
      (fun ty => ty == BlockType.essential || ty == BlockType.movement)
      (fun b => b.end_ - b.start) st = essInfos st from fun st => rfl]
  rw [essInfos_scheduleWork]
  simp only [essInfos]
  rw [typedInfos_push_true _ _ _ _ _ _ _ _ _ rfl]
  simp [typedInfos, addMinutes, add_sub_cancel_left]

theorem sleepData_type (tasks : List Task) (cfg : ScheduleConfig) :
    (sleepData tasks cfg).type = BlockType.sleep := rfl

theorem typedInfos_allBlocksData {α : Type} (p : BlockType → Bool) (f : BlockData → α)
    (tasks : List Task) (cfg : ScheduleConfig) (h : p BlockType.sleep = false) :
    typedInfos p f (allBlocksData tasks cfg) =
      typedInfos p f (layoutBlocks tasks cfg).blocks := by
  rw [allBlocksData, typedInfos_append]
  have hs : typedInfos p f [sleepData tasks cfg] = [] := by
    simp [typedInfos, sleepData_type, h]
  rw [hs, List.append_nil]

theorem filter_map_strip {α : Type} (p : BlockType → Bool) (f : BlockData → α)
    (p' : TimeBlock → Bool) (f' : TimeBlock → α)
    (hp : ∀ b, p' b = p (stripBlock b).type) (hf : ∀ b, f' b = f (stripBlock b))
    (l : List TimeBlock) :
    (l.filter p').map f' = typedInfos p f (l.map stripBlock) := by
  induction l with
  | nil => rfl
  | cons b bs ih =>
    simp only [typedInfos] at ih ⊢
    rw [List.map_cons, List.filter_cons, hp b]
    cases h : p (stripBlock b).type
    · simpa [h] using ih
    · simp [h, hf b, ih]

/-- C1: for every task list, config and id supply, the total length in minutes
of the work-typed blocks in the output equals the sum over work tasks of the
step-2 durations `calculateWorkDuration` (min hours at low, rounded midpoint
at medium, max hours at high, 90 minutes without a declared range) — work is
never reduced, regardless of the sign of the flexible time. -/
theorem c1_work_protection (g : ℕ → String) (tasks : List Task)
    (cfg : ScheduleConfig) :
    (((generateSchedule g tasks cfg).blocks.filter
        (fun b => b.type == BlockType.work)).map (fun b => b.end_ - b.start)).sum =
      ((tasks.filter (fun t => t.type == BlockType.work)).map
        (fun t => calculateWorkDuration t cfg.intensity)).sum := by
  rw [filter_map_strip (fun ty => ty == BlockType.work)
      (fun b => b.end_ - b.start)
      (fun b : TimeBlock => b.type == BlockType.work)
      (fun b : TimeBlock => b.end_ - b.start) (fun b => rfl) (fun b => rfl)]
  rw [blocks_map_strip]
  rw [typedInfos_allBlocksData _ _ _ _ rfl]
  have hcomp : typedInfos (fun ty => ty == BlockType.work)
      (fun b => b.end_ - b.start) (layoutBlocks tasks cfg).blocks =
      (workInfos (layoutBlocks tasks cfg).blocks).map (fun x => x.1) := by
    simp [workInfos, typedInfos, List.map_map]
  rw [hcomp, workInfos_layoutBlocks, accounting_workDurations]
  simp [List.map_map]
  rfl

theorem sleepData_start (tasks : List Task) (cfg : ScheduleConfig) :
    (sleepData tasks cfg).start = (layoutBlocks tasks cfg).currentTime := rfl

theorem sleepData_end (tasks : List Task) (cfg : ScheduleConfig) :
    (sleepData tasks cfg).end_ =
      addMinutes (accounting tasks cfg).wakeDate (24 * 60) := rfl

theorem laid_pushBlock {w : ℚ} {st : LayoutState} (d : ℚ) (lb : String)
    (ty : BlockType) (tid : Option String) (r : Bool) (o : Option ℚ)
    (h : Laid w st) : Laid w (pushBlock st d lb ty tid r o) := by
  obtain ⟨h1, h2, h3⟩ := h
  cases hb : st.blocks with
  | nil => rw [hb] at h1; simp at h1
  | cons x xs =>
    rw [hb] at h1 h2 h3
    refine ⟨?_, ?_, ?_⟩
    · simpa [pushBlock, hb] using h1
    · simp only [pushBlock, hb]
      apply List.Chain'.append h2
      · exact List.chain'_singleton _
      · intro a ha b hb'
        simp only [List.head?_cons, Option.mem_def, Option.some.injEq] at hb'
        subst hb'
        have : (x :: xs).getLast?.map BlockData.end_ = some st.currentTime := h3
        rw [Option.mem_def] at ha
        have hx : ((x :: xs).getLast?).map BlockData.end_ =
            some a.end_ := by rw [ha]; rfl
        rw [this] at hx
        simpa using hx.symm
    · simp only [pushBlock, hb]
      rw [List.getLast?_concat]
      rfl

theorem laid_start (w : ℚ) (d : ℚ) (lb : String) (ty : BlockType)
    (tid : Option String) (r : Bool) (o : Option ℚ) :
    Laid w (pushBlock ⟨[], w⟩ d lb ty tid r o) := by
  refine ⟨rfl, ?_, rfl⟩
  exact List.chain'_singleton _

theorem laid_ite_push {w : ℚ} {c : Prop} [Decidable c] {st : LayoutState} (d : ℚ)
    (lb : String) (ty : BlockType) (tid : Option String) (r : Bool) (o : Option ℚ)
    (h : Laid w st) : Laid w (if c then pushBlock st d lb ty tid r o else st) := by
  split
  · exact laid_pushBlock d lb ty tid r o h
  · exact h

theorem laid_ite_skip {w : ℚ} {c : Prop} [Decidable c] {st : LayoutState} (d : ℚ)
    (lb : String) (ty : BlockType) (tid : Option String) (r : Bool) (o : Option ℚ)
    (h : Laid w st) : Laid w (if c then st else pushBlock st d lb ty tid r o) := by
  split
  · exact h
  · exact laid_pushBlock d lb ty tid r o h

theorem laid_maybeLunch {w : ℚ} {st : LayoutState} (h : Laid w st) :
    Laid w (maybeLunch st) := by
  unfold maybeLunch
  exact laid_ite_push _ _ _ _ _ _ h

theorem laid_scheduleWork {w : ℚ} (bd bn : ℚ) (br : Bool) (l : List (Task × ℚ))
    {st : LayoutState} (h : Laid w st) : Laid w (scheduleWork bd bn br l st) := by
  induction l generalizing st with
  | nil => simpa [scheduleWork] using h
  | cons hd rest ih =>
    obtain ⟨t, d⟩ := hd
    simp only [scheduleWork]
    exact ih (laid_ite_skip _ _ _ _ _ _
      (laid_pushBlock _ _ _ _ _ _ (laid_maybeLunch h)))

theorem laid_scheduleEssentials {w : ℚ} (l : List Task) {st : LayoutState}
    (h : Laid w st) : Laid w (scheduleEssentials l st) := by
  induction l generalizing st with
  | nil => simpa [scheduleEssentials] using h
  | cons t rest ih =>
    simp only [scheduleEssentials]
    exact ih (laid_pushBlock _ _ _ _ _ _ h)

theorem laid_layoutBlocks (tasks : List Task) (cfg : ScheduleConfig) :
    Laid (parseTime cfg.wakeHour cfg.wakeMin) (layoutBlocks tasks cfg) := by
  simp only [layoutBlocks]
  exact laid_ite_push _ _ _ _ _ _
    (laid_ite_push _ _ _ _ _ _
      (laid_ite_push _ _ _ _ _ _
        (laid_scheduleEssentials _
          (laid_ite_skip _ _ _ _ _ _
            (laid_scheduleWork _ _ _ _ (laid_start _ _ _ _ _ _ _))))))

theorem allBlocksData_laid (tasks : List Task) (cfg : ScheduleConfig) :
    List.Chain' (fun a b => a.end_ = b.start) (allBlocksData tasks cfg) ∧
    (allBlocksData tasks cfg).head?.map BlockData.start =
      some (parseTime cfg.wakeHour cfg.wakeMin) ∧
    (allBlocksData tasks cfg).getLast?.map BlockData.end_ =
      some (parseTime cfg.wakeHour cfg.wakeMin + 24 * 60) := by
  obtain ⟨h1, h2, h3⟩ := laid_layoutBlocks tasks cfg
  refine ⟨?_, ?_, ?_⟩
  · rw [allBlocksData]
    apply List.Chain'.append h2 (List.chain'_singleton _)
    intro a ha b hb'
    simp only [List.head?_cons, Option.mem_def, Option.some.injEq] at hb'
    subst hb'
    rw [Option.mem_def] at ha
    have hx : ((layoutBlocks tasks cfg).blocks.getLast?).map BlockData.end_ =
        some a.end_ := by rw [ha]; rfl
    rw [h3] at hx
    rw [sleepData_start]
    simpa using hx.symm
  · rw [allBlocksData]
    cases hb : (layoutBlocks tasks cfg).blocks with
    | nil => rw [hb] at h1; simp at h1
    | cons x xs => rw [hb] at h1; simpa [hb] using h1
  · rw [allBlocksData, List.getLast?_concat, Option.map_some']
    rw [sleepData_end, accounting_wakeDate]
    rfl

/-- C2: for every input, the output block list is contiguous — each block ends
exactly where the next begins — with the first block starting at the parsed
wake time and the final (sleep) block ending exactly 24 hours after it. -/
theorem c2_contiguity (g : ℕ → String) (tasks : List Task) (cfg : ScheduleConfig) :
    List.Chain' (fun a b => a.end_ = b.start) (generateSchedule g tasks cfg).blocks ∧
    (generateSchedule g tasks cfg).blocks.head?.map TimeBlock.start =
      some (parseTime cfg.wakeHour cfg.wakeMin) ∧
    (generateSchedule g tasks cfg).blocks.getLast?.map TimeBlock.end_ =
      some (parseTime cfg.wakeHour cfg.wakeMin + 24 * 60) := by
  obtain ⟨h1, h2, h3⟩ := allBlocksData_laid tasks cfg
  rw [← blocks_map_strip g tasks cfg] at h1 h2 h3
  refine ⟨?_, ?_, ?_⟩
  · rw [List.chain'_map] at h1
    exact h1
  · rw [List.head?_map, Option.map_map] at h2
    exact h2
  · rw [List.getLast?_map, Option.map_map] at h3
    exact h3

/-- C9: the embedding of `generateSchedule` is a total function — mirroring the
source, in which no operation can throw — and always returns a schedule: the
block list is never empty, and the only failure signalling is the single
over-allocation warning string, present exactly when the flexible time is
negative both before and after the break/sleep reductions. -/
theorem c9_no_exceptions (g : ℕ → String) (tasks : List Task) (cfg : ScheduleConfig) :
    (generateSchedule g tasks cfg).blocks ≠ [] ∧
    ((generateSchedule g tasks cfg).warnings =
      if (accounting tasks cfg).flexible0 < 0 ∧ (accounting tasks cfg).flexible2 < 0
      then [overAllocationWarning (accounting tasks cfg).flexible2] else []) := by
  constructor
  · rw [generateSchedule_blocks]
    simp [allBlocksData]
  · rw [generateSchedule_warnings]
    rfl

/-- C7: two runs on identical tasks and config differ at most in the randomly
generated block ids — block start/end times, labels, types, `isReduced` flags,
`originalMinutes`, tradeoffs, warnings and stats are all identical. -/
theorem c7_deterministic_allocation (tasks : List Task) (cfg : ScheduleConfig)
    (g1 g2 : ℕ → String) :
    ((generateSchedule g1 tasks cfg).blocks.map stripBlock =
      (generateSchedule g2 tasks cfg).blocks.map stripBlock) ∧
    (generateSchedule g1 tasks cfg).tradeoffs =
      (generateSchedule g2 tasks cfg).tradeoffs ∧
    (generateSchedule g1 tasks cfg).warnings =
      (generateSchedule g2 tasks cfg).warnings ∧
    (generateSchedule g1 tasks cfg).stats = (generateSchedule g2 tasks cfg).stats := by
  refine ⟨?_, rfl, rfl, rfl⟩
  rw [blocks_map_strip, blocks_map_strip]

theorem accounting_rangedWorkTasks (tasks : List Task) (cfg : ScheduleConfig) :
    (accounting tasks cfg).rangedWorkTasks =
      (accounting tasks cfg).workDurations.filter
        (fun wd => wd.1.minHours.isSome && wd.1.maxHours.isSome) := rfl

theorem rangedWorkTasks_pos {tasks : List Task} {cfg : ScheduleConfig} {t : Task}
    (ht : t ∈ tasks) (hw : t.type = BlockType.work)
    (hmin : t.minHours.isSome = true) (hmax : t.maxHours.isSome = true) :
    0 < (accounting tasks cfg).rangedWorkTasks.length := by
  rw [accounting_rangedWorkTasks, accounting_workDurations]
  apply List.length_pos.mpr
  apply List.ne_nil_of_mem
  show (t, calculateWorkDuration t cfg.intensity) ∈ _
  apply List.mem_filter.mpr
  constructor
  · exact List.mem_map.mpr ⟨t, List.mem_filter.mpr ⟨ht, by simp [hw]⟩, rfl⟩
  · simp [hmin, hmax]

theorem rangeMsg_mem_tradeoffs (cfg : ScheduleConfig) (A : Accounting)
    (h : 0 < A.rangedWorkTasks.length) :
    rangeTradeoffMessage cfg.intensity ∈ tradeoffMessages cfg A := by
  cases hi : cfg.intensity <;> simp [tradeoffMessages, hi, h]

theorem exists_work_block (g : ℕ → String) (tasks : List Task)
    (cfg : ScheduleConfig) (t : Task) (ht : t ∈ tasks)
    (hw : (t.type == BlockType.work) = true) :
    ∃ b ∈ (generateSchedule g tasks cfg).blocks, b.type = BlockType.work ∧
      b.taskId = some t.id ∧
      b.end_ - b.start = calculateWorkDuration t cfg.intensity := by
  have h1 : (calculateWorkDuration t cfg.intensity, false, some t.id) ∈
      workInfos (layoutBlocks tasks cfg).blocks := by
    rw [workInfos_layoutBlocks, accounting_workDurations]
    exact List.mem_map.mpr ⟨(t, calculateWorkDuration t cfg.intensity),
      List.mem_map.mpr ⟨t, List.mem_filter.mpr ⟨ht, hw⟩, rfl⟩, rfl⟩
  rw [workInfos, typedInfos] at h1
  obtain ⟨b, hbmem, hbeq⟩ := List.mem_map.mp h1
  have hbl : b ∈ (layoutBlocks tasks cfg).blocks := (List.mem_filter.mp hbmem).1
  have hbt : (b.type == BlockType.work) = true := by
    simpa using (List.mem_filter.mp hbmem).2
  have hall : b ∈ ((generateSchedule g tasks cfg).blocks).map stripBlock := by
    rw [blocks_map_strip, allBlocksData]
    exact List.mem_append_left _ hbl
  obtain ⟨tb, htb, hstrip⟩ := List.mem_map.mp hall
  have hdur : b.end_ - b.start = calculateWorkDuration t cfg.intensity :=
    congrArg Prod.fst hbeq
  have hid : b.taskId = some t.id := congrArg (fun x => x.2.2) hbeq
  refine ⟨tb, htb, ?_, ?_, ?_⟩
  · have h2 : tb.type = b.type := by rw [← hstrip]; rfl
    rw [h2]
    exact eq_of_beq hbt
  · have h2 : tb.taskId = b.taskId := by rw [← hstrip]; rfl
    rw [h2, hid]
  · have h2 : tb.end_ = b.end_ := by rw [← hstrip]; rfl
    have h3 : tb.start = b.start := by rw [← hstrip]; rfl
    rw [h2, h3, hdur]

/-- C6: a work task declaring a min/max hour range is scheduled as one work
block of `minHours*60` minutes at low intensity, the rounded midpoint of
`minHours*60` and `maxHours*60` at medium, and `maxHours*60` at high (so
`minHours=2, maxHours=4` yields 120/180/240), and the tradeoffs list carries
the minimum/midpoint/maximum-framed range message matching the intensity. -/
theorem c6_range_resolution (g : ℕ → String) (tasks : List Task)
    (cfg : ScheduleConfig) (t : Task) (mn mx : ℚ) (ht : t ∈ tasks)
    (hw : t.type = BlockType.work) (hmin : t.minHours = some mn)
    (hmax : t.maxHours = some mx) :
    calculateWorkDuration t cfg.intensity =
      (match cfg.intensity with
       | Intensity.low => mn * 60
       | Intensity.medium => (jsRound ((mn * 60 + mx * 60) / 2) : ℚ)
       | Intensity.high => mx * 60) ∧
    (∃ b ∈ (generateSchedule g tasks cfg).blocks, b.type = BlockType.work ∧
      b.taskId = some t.id ∧
      b.end_ - b.start = calculateWorkDuration t cfg.intensity) ∧
    rangeTradeoffMessage cfg.intensity ∈ (generateSchedule g tasks cfg).tradeoffs := by
  refine ⟨?_, ?_, ?_⟩
  · cases cfg.intensity <;> simp [calculateWorkDuration, hmin, hmax]
  · exact exists_work_block g tasks cfg t ht (by simp [hw])
  · rw [generateSchedule_tradeoffs]
    exact rangeMsg_mem_tradeoffs cfg _
      (rangedWorkTasks_pos ht hw (by simp [hmin]) (by simp [hmax]))

/-- C6 witness: the scenario-D task (2-4 hours) in a medium-intensity run is
scheduled as a 180-minute work block and the midpoint tradeoff message is
emitted. -/
theorem c6_range_resolution_witness :
    calculateWorkDuration exRange24 Intensity.medium = 180 ∧
    (∃ b ∈ (generateSchedule idGen [exRange24] exCfgMedium).blocks,
      b.type = BlockType.work ∧ b.taskId = some "d1" ∧ b.end_ - b.start = 180) ∧
    rangeTradeoffMessage Intensity.medium ∈
      (generateSchedule idGen [exRange24] exCfgMedium).tradeoffs := by
  have h := c6_range_resolution idGen [exRange24] exCfgMedium exRange24 2 4
    (List.mem_singleton.mpr rfl) rfl rfl rfl
  have hcalc : calculateWorkDuration exRange24 Intensity.medium = 180 :=
    of_decide_eq_true (by with_unfolding_all rfl)
  refine ⟨hcalc, ?_, h.2.2⟩
  obtain ⟨b, hb, h1, h2, h3⟩ := h.2.1
  exact ⟨b, hb, h1, h2, by rw [h3]; exact hcalc⟩

theorem essOrMov_cases {ty : BlockType}
    (h : (ty == BlockType.essential || ty == BlockType.movement) = true) :
    ty = BlockType.essential ∨ ty = BlockType.movement := by
  cases ty <;> revert h <;> decide

theorem allPos_pushBlock {st : LayoutState} (d : ℚ) (lb : String) (ty : BlockType)
    (tid : Option String) (r : Bool) (o : Option ℚ) (hd : 0 < d) (h : AllPos st) :
    AllPos (pushBlock st d lb ty tid r o) := by
  intro b hb
  simp only [pushBlock] at hb
  rcases List.mem_append.mp hb with h1 | h1
  · exact h b h1
  · rw [List.mem_singleton] at h1
    subst h1
    show st.currentTime < addMinutes st.currentTime d
    simp only [addMinutes]
    linarith

theorem allPos_ite_push {c : Prop} [Decidable c] {st : LayoutState} (d : ℚ)
    (lb : String) (ty : BlockType) (tid : Option String) (r : Bool) (o : Option ℚ)
    (hd : c → 0 < d) (h : AllPos st) :
    AllPos (if c then pushBlock st d lb ty tid r o else st) := by
  by_cases hc : c
  · rw [if_pos hc]
    exact allPos_pushBlock d lb ty tid r o (hd hc) h
  · rw [if_neg hc]
    exact h

theorem allPos_ite_skip {c : Prop} [Decidable c] {st : LayoutState} (d : ℚ)
    (lb : String) (ty : BlockType) (tid : Option String) (r : Bool) (o : Option ℚ)
    (hd : 0 < d) (h : AllPos st) :
    AllPos (if c then st else pushBlock st d lb ty tid r o) := by
  by_cases hc : c
  · rw [if_pos hc]; exact h
  · rw [if_neg hc]
    exact allPos_pushBlock d lb ty tid r o hd h

theorem allPos_maybeLunch {st : LayoutState} (h : AllPos st) : AllPos (maybeLunch st) := by
  unfold maybeLunch
  exact allPos_ite_push _ _ _ _ _ _ (fun _ => by norm_num [MEAL_DURATION]) h

theorem allPos_scheduleWork (bd bn : ℚ) (br : Bool) (l : List (Task × ℚ))
    {st : LayoutState} (hbd : 0 < bd) (hdur : ∀ wd ∈ l, 0 < wd.2) (h : AllPos st) :
    AllPos (scheduleWork bd bn br l st) := by
  induction l generalizing st with
  | nil => simpa [scheduleWork] using h
  | cons hd rest ih =>
    obtain ⟨t, d⟩ := hd
    simp only [scheduleWork]
    refine ih (fun wd hwd => hdur wd (List.mem_cons_of_mem _ hwd)) ?_
    refine allPos_ite_skip _ _ _ _ _ _ ?_ ?_
    · split
      · linarith
      · exact hbd
    · refine allPos_pushBlock _ _ _ _ _ _ ?_ (allPos_maybeLunch h)
      exact hdur (t, d) (List.mem_cons_self _ _)

theorem allPos_scheduleEssentials (l : List Task) {st : LayoutState}
    (hest : ∀ t ∈ l, 0 < t.estimatedMinutes) (h : AllPos st) :
    AllPos (scheduleEssentials l st) := by
  induction l generalizing st with
  | nil => simpa [scheduleEssentials] using h
  | cons t rest ih =>
    simp only [scheduleEssentials]
    refine ih (fun u hu => hest u (List.mem_cons_of_mem _ hu)) ?_
    exact allPos_pushBlock _ _ _ _ _ _ (hest t (List.mem_cons_self _ _)) h

theorem jsRound_point_six_pos (i : Intensity) :
    (0 : ℚ) < (jsRound ((INTENSITY_CONFIG i).breakDuration * 0.6) : ℚ) := by
  cases i
  · exact of_decide_eq_true (by with_unfolding_all rfl)
  · exact of_decide_eq_true (by with_unfolding_all rfl)
  · exact of_decide_eq_true (by with_unfolding_all rfl)

theorem breakDuration_pos (i : Intensity) :
    (0 : ℚ) < (INTENSITY_CONFIG i).breakDuration := by
  cases i <;> norm_num [INTENSITY_CONFIG]

theorem layoutBreakDuration_pos (cfg : ScheduleConfig) (A : Accounting) :
    0 < layoutBreakDuration cfg A := by
  unfold layoutBreakDuration
  split
  · exact jsRound_point_six_pos cfg.intensity
  · exact breakDuration_pos cfg.intensity

theorem windDuration_pos {T : ℤ} (h : 15 < T) :
    (0 : ℚ) < ((mathMinI 30 T : ℤ) : ℚ) := by
  have h0 : (0 : ℤ) < mathMinI 30 T := by
    unfold mathMinI
    split <;> omega
  exact_mod_cast h0

theorem allPos_layoutBlocks (tasks : List Task) (cfg : ScheduleConfig)
    (hw : ∀ t ∈ tasks, t.type = BlockType.work →
      0 < calculateWorkDuration t cfg.intensity)
    (he : ∀ t ∈ tasks,
      (t.type = BlockType.essential ∨ t.type = BlockType.movement) →
      0 < t.estimatedMinutes) :
    AllPos (layoutBlocks tasks cfg) := by
  simp only [layoutBlocks]
  refine allPos_ite_push _ _ _ _ _ _ (fun hc => windDuration_pos hc) ?_
  refine allPos_ite_push _ _ _ _ _ _ (fun hc => by linarith) ?_
  refine allPos_ite_push _ _ _ _ _ _ (fun hc => by linarith) ?_
  refine allPos_scheduleEssentials _ ?_ ?_
  · intro t ht
    have hm := mem_essentialTasks ht
    rw [accounting_essentialTasks] at ht
    exact he t (List.mem_filter.mp ht).1 (essOrMov_cases hm)
  refine allPos_ite_skip _ _ _ _ _ _ (by norm_num [MEAL_DURATION]) ?_
  refine allPos_scheduleWork _ _ _ _ (layoutBreakDuration_pos cfg _) ?_ ?_
  · intro wd hwd
    rw [accounting_workDurations] at hwd
    obtain ⟨t, htf, heq⟩ := List.mem_map.mp hwd
    obtain ⟨ht, htw⟩ := List.mem_filter.mp htf
    have h2 := hw t ht (by simpa using htw)
    subst heq
    exact h2
  · refine allPos_pushBlock _ _ _ _ _ _ (by norm_num [MORNING_ROUTINE]) ?_
    intro b hb
    simp at hb

/-- C8 amended: every block except the final sleep block has a strictly
positive duration, provided each work task resolves to a positive duration and
each essential/movement task has positive estimated minutes; the final sleep
block always ends at wake+24h and its `end` can fall at or before its `start`
on sufficiently over-allocated inputs (see the counterexample). -/
theorem c8_nonsleep_positive (g : ℕ → String) (tasks : List Task)
    (cfg : ScheduleConfig)
    (hw : ∀ t ∈ tasks, t.type = BlockType.work →
      0 < calculateWorkDuration t cfg.intensity)
    (he : ∀ t ∈ tasks,
      (t.type = BlockType.essential ∨ t.type = BlockType.movement) →
      0 < t.estimatedMinutes) :
    ∀ b ∈ (generateSchedule g tasks cfg).blocks,
      b.type ≠ BlockType.sleep → b.start < b.end_ := by
  intro b hb hbs
  have hmem : stripBlock b ∈ allBlocksData tasks cfg := by
    rw [← blocks_map_strip g tasks cfg]
    exact List.mem_map_of_mem _ hb
  rw [allBlocksData] at hmem
  rcases List.mem_append.mp hmem with h1 | h1
  · exact allPos_layoutBlocks tasks cfg hw he (stripBlock b) h1
  · rw [List.mem_singleton] at h1
    refine absurd ?_ hbs
    have h2 : (stripBlock b).type = (sleepData tasks cfg).type := by rw [h1]
    simpa [sleepData_type] using h2

/-- C8 amended, witness: in a run with one 2-4 hour work task at medium
intensity every non-sleep block has a strictly positive duration. -/
theorem c8_nonsleep_positive_witness :
    (((generateSchedule idGen [exRange24] exCfgMedium).blocks.filter
      (fun b => !(b.type == BlockType.sleep))).all
      (fun b => decide (b.start < b.end_))) = true := by
  have h := c8_nonsleep_positive idGen [exRange24] exCfgMedium
    (fun t ht _ => by
      rw [List.mem_singleton] at ht
      subst ht
      exact of_decide_eq_true (by with_unfolding_all rfl))
    (fun t ht hty => by
      rw [List.mem_singleton] at ht
      subst ht
      rcases hty with hx | hx <;> exact absurd hx (by decide))
  rw [List.all_eq_true]
  intro b hb
  rw [List.mem_filter] at hb
  refine decide_eq_true (h b hb.1 ?_)
  have h2 := hb.2
  simp only [Bool.not_eq_true', beq_eq_false_iff_ne, ne_eq] at h2
  exact h2

theorem accounting_flexible1 (tasks : List Task) (cfg : ScheduleConfig) :
    (accounting tasks cfg).flexible1 =
      (accounting tasks cfg).flexible0 + (accounting tasks cfg).breakReduction := rfl

theorem accounting_breakReduction (tasks : List Task) (cfg : ScheduleConfig) :
    (accounting tasks cfg).breakReduction =
      if (accounting tasks cfg).flexible0 < 0 then
        mathMin (mathAbs (accounting tasks cfg).flexible0)
          ((accounting tasks cfg).totalBreakMinutes0 * 0.5)
      else 0 := rfl

theorem accounting_sleepReduction (tasks : List Task) (cfg : ScheduleConfig) :
    (accounting tasks cfg).sleepReduction =
      if (accounting tasks cfg).flexible0 < 0 ∧ (accounting tasks cfg).flexible1 < 0 ∧
          cfg.intensity = Intensity.high then
        mathMin (mathAbs (accounting tasks cfg).flexible1)
          (INTENSITY_CONFIG cfg.intensity).sleepReductionMinutes
      else 0 := rfl

/-- C4 amended: whenever sleep is borrowed, the intensity is high and the
accounting break reduction has already hit its full 50% cap (so breaks are
reduced before any sleep borrowing, in that order); every break block carries
`isReduced = breaksReduced` and `originalMinutes` equal to the nominal break
duration when reduced, but its laid-out length is `round(0.6 * nominal)` —
not 50% of nominal — plus a 5-minute bonus after a work block longer than 120
minutes; and work/essential durations are never reduced (work blocks carry
exactly the step-2 durations with `isReduced = false`, essential/movement
blocks exactly their estimated minutes). -/
theorem c4_reduction_order (g : ℕ → String) (tasks : List Task)
    (cfg : ScheduleConfig) :
    ((accounting tasks cfg).sleepReduced = true →
      cfg.intensity = Intensity.high ∧
      (accounting tasks cfg).breakReduction =
        (accounting tasks cfg).totalBreakMinutes0 * 0.5) ∧
    (∀ b ∈ (generateSchedule g tasks cfg).blocks, b.type = BlockType.break_ →
      b.isReduced = (accounting tasks cfg).breaksReduced ∧
      b.originalMinutes = (if (accounting tasks cfg).breaksReduced then
        some (INTENSITY_CONFIG cfg.intensity).breakDuration else none) ∧
      (b.end_ - b.start = layoutBreakDuration cfg (accounting tasks cfg) ∨
        b.end_ - b.start = layoutBreakDuration cfg (accounting tasks cfg) + 5)) ∧
    (((generateSchedule g tasks cfg).blocks.filter
        (fun b => b.type == BlockType.work)).map
      (fun b => (b.end_ - b.start, b.isReduced)) =
      (accounting tasks cfg).workDurations.map (fun wd => (wd.2, false))) ∧
    (((generateSchedule g tasks cfg).blocks.filter
        (fun b => b.type == BlockType.essential || b.type == BlockType.movement)).map
      (fun b => b.end_ - b.start) =
      MORNING_ROUTINE ::
        (accounting tasks cfg).essentialTasks.map (fun t => t.estimatedMinutes)) := by
  refine ⟨?_, ?_, ?_, ?_⟩
  · intro hs
    have hsr : 0 < (accounting tasks cfg).sleepReduction := of_decide_eq_true hs
    by_cases hcond : (accounting tasks cfg).flexible0 < 0 ∧
        (accounting tasks cfg).flexible1 < 0 ∧ cfg.intensity = Intensity.high
    · obtain ⟨hf0, hf1, hi⟩ := hcond
      refine ⟨hi, ?_⟩
      rw [accounting_breakReduction, if_pos hf0]
      by_cases hle : mathAbs (accounting tasks cfg).flexible0 ≤
          (accounting tasks cfg).totalBreakMinutes0 * 0.5
      · exfalso
        have habs : mathAbs (accounting tasks cfg).flexible0 =
            -(accounting tasks cfg).flexible0 := by
          unfold mathAbs
          rw [if_pos hf0]
        have hred : (accounting tasks cfg).breakReduction =
            -(accounting tasks cfg).flexible0 := by
          rw [accounting_breakReduction, if_pos hf0]
          unfold mathMin
          rw [if_pos hle, habs]
        have hf1z : (accounting tasks cfg).flexible1 = 0 := by
          rw [accounting_flexible1, hred]
          ring
        rw [hf1z] at hf1
        exact lt_irrefl 0 hf1
      · unfold mathMin
        rw [if_neg hle]
    · exfalso
      rw [accounting_sleepReduction, if_neg hcond] at hsr
      exact lt_irrefl 0 hsr
  · intro b hb hbt
    have hmem : stripBlock b ∈ allBlocksData tasks cfg := by
      rw [← blocks_map_strip g tasks cfg]
      exact List.mem_map_of_mem _ hb
    have htriple : ((stripBlock b).end_ - (stripBlock b).start,
        (stripBlock b).isReduced, (stripBlock b).originalMinutes) ∈
        breakInfos (allBlocksData tasks cfg) := by
      rw [breakInfos, typedInfos]
      refine List.mem_map.mpr ⟨stripBlock b, List.mem_filter.mpr ⟨hmem, ?_⟩, rfl⟩
      show ((stripBlock b).type == BlockType.break_) = true
      have h2 : (stripBlock b).type = BlockType.break_ := hbt
      simp [h2]
    rw [show breakInfos (allBlocksData tasks cfg) =
        breakInfos (layoutBlocks tasks cfg).blocks from
      typedInfos_allBlocksData _ _ _ _ rfl] at htriple
    rw [breakInfos_layoutBlocks] at htriple
    obtain ⟨wd, hwd, heq⟩ := List.mem_map.mp htriple
    have hdur : (if 120 < wd.2 then layoutBreakDuration cfg (accounting tasks cfg) + 5
        else layoutBreakDuration cfg (accounting tasks cfg)) =
        (stripBlock b).end_ - (stripBlock b).start := congrArg Prod.fst heq
    have hred : (accounting tasks cfg).breaksReduced = (stripBlock b).isReduced :=
      congrArg (fun x => x.2.1) heq
    have horig : (if (accounting tasks cfg).breaksReduced then
        some (INTENSITY_CONFIG cfg.intensity).breakDuration else none) =
        (stripBlock b).originalMinutes := congrArg (fun x => x.2.2) heq
    refine ⟨hred.symm, horig.symm, ?_⟩
    by_cases h120 : 120 < wd.2
    · right
      rw [if_pos h120] at hdur
      exact hdur.symm
    · left
      rw [if_neg h120] at hdur
      exact hdur.symm
  · rw [filter_map_strip (fun ty => ty == BlockType.work)
        (fun b => (b.end_ - b.start, b.isReduced))
        (fun b : TimeBlock => b.type == BlockType.work)
        (fun b : TimeBlock => (b.end_ - b.start, b.isReduced))
        (fun b => rfl) (fun b => rfl)]
    rw [blocks_map_strip]
    rw [typedInfos_allBlocksData _ _ _ _ rfl]
    have hcomp : typedInfos (fun ty => ty == BlockType.work)
        (fun b => (b.end_ - b.start, b.isReduced)) (layoutBlocks tasks cfg).blocks =
        (workInfos (layoutBlocks tasks cfg).blocks).map (fun x => (x.1, x.2.1)) := by
      simp [workInfos, typedInfos, List.map_map]
    rw [hcomp, workInfos_layoutBlocks]
    simp [List.map_map]
  · rw [filter_map_strip
        (fun ty => ty == BlockType.essential || ty == BlockType.movement)
        (fun b => b.end_ - b.start)
        (fun b : TimeBlock =>
          b.type == BlockType.essential || b.type == BlockType.movement)
        (fun b : TimeBlock => b.end_ - b.start) (fun b => rfl) (fun b => rfl)]
    rw [blocks_map_strip]
    rw [typedInfos_allBlocksData _ _ _ _ rfl]
    exact essInfos_layoutBlocks tasks cfg

/-- C4 amended, witness: a run in which both breaks and sleep are reduced
(two 2-hour work tasks plus a 700-minute essential task, high intensity): the
ordering clause applies with `sleepReduced = true`, the intensity is high and
the accounting break reduction equals the full 50% of the nominal total. -/
theorem c4_reduction_order_witness :
    (accounting [exWork2a, exWork2b, exEssential700] exCfgHigh).sleepReduced = true ∧
    exCfgHigh.intensity = Intensity.high ∧
    (accounting [exWork2a, exWork2b, exEssential700] exCfgHigh).breakReduction =
      (accounting [exWork2a, exWork2b, exEssential700] exCfgHigh).totalBreakMinutes0
        * 0.5 := by
  have hs : (accounting [exWork2a, exWork2b, exEssential700] exCfgHigh).sleepReduced
      = true := of_decide_eq_true (by with_unfolding_all rfl)
  have h := (c4_reduction_order idGen [exWork2a, exWork2b, exEssential700]
    exCfgHigh).1 hs
  exact ⟨hs, h.1, h.2⟩

theorem accounting_availableMinutes0 (tasks : List Task) (cfg : ScheduleConfig) :
    (accounting tasks cfg).availableMinutes0 =
      differenceInMinutes (parseTime cfg.sleepHour cfg.sleepMin)
        (parseTime cfg.wakeHour cfg.wakeMin) := rfl

theorem accounting_targetSleep0 (tasks : List Task) (cfg : ScheduleConfig) :
    (accounting tasks cfg).targetSleep0 = parseTime cfg.sleepHour cfg.sleepMin := rfl

theorem accounting_phoneTasks (tasks : List Task) (cfg : ScheduleConfig) :
    (accounting tasks cfg).phoneTasks =
      tasks.filter
        (fun t => t.type == BlockType.phone || t.type == BlockType.social) := rfl

theorem accounting_leisureTasks (tasks : List Task) (cfg : ScheduleConfig) :
    (accounting tasks cfg).leisureTasks =
      tasks.filter (fun t => t.type == BlockType.leisure) := rfl

theorem accounting_totalWorkMinutes (tasks : List Task) (cfg : ScheduleConfig) :
    (accounting tasks cfg).totalWorkMinutes =
      ((accounting tasks cfg).workDurations.map (fun wd => wd.2)).sum := rfl

theorem accounting_totalEssentialMinutes (tasks : List Task) (cfg : ScheduleConfig) :
    (accounting tasks cfg).totalEssentialMinutes =
      ((accounting tasks cfg).essentialTasks.map
        (fun t => t.estimatedMinutes)).sum := rfl

theorem accounting_totalBreakMinutes0 (tasks : List Task) (cfg : ScheduleConfig) :
    (accounting tasks cfg).totalBreakMinutes0 =
      ((max 0 (accounting tasks cfg).workTasks.length : ℕ) : ℚ) *
        (INTENSITY_CONFIG cfg.intensity).breakDuration := rfl

theorem accounting_minimumRequired (tasks : List Task) (cfg : ScheduleConfig) :
    (accounting tasks cfg).minimumRequired =
      (accounting tasks cfg).totalWorkMinutes +
        (accounting tasks cfg).totalEssentialMinutes +
        (accounting tasks cfg).totalBreakMinutes0 +
        (MORNING_ROUTINE + MEAL_DURATION) := rfl

theorem accounting_flexible0 (tasks : List Task) (cfg : ScheduleConfig) :
    (accounting tasks cfg).flexible0 =
      ((accounting tasks cfg).availableMinutes0 : ℚ) -
        (accounting tasks cfg).minimumRequired := rfl

theorem accounting_breaksReduced (tasks : List Task) (cfg : ScheduleConfig) :
    (accounting tasks cfg).breaksReduced =
      decide (0 < (accounting tasks cfg).breakReduction) := rfl

theorem accounting_sleepReduced (tasks : List Task) (cfg : ScheduleConfig) :
    (accounting tasks cfg).sleepReduced =
      decide (0 < (accounting tasks cfg).sleepReduction) := rfl

theorem accounting_targetSleep (tasks : List Task) (cfg : ScheduleConfig) :
    (accounting tasks cfg).targetSleep =
      addMinutes (accounting tasks cfg).targetSleep0
        (accounting tasks cfg).sleepReduction := rfl

theorem accounting_flexible2 (tasks : List Task) (cfg : ScheduleConfig) :
    (accounting tasks cfg).flexible2 =
      (accounting tasks cfg).flexible1 + (accounting tasks cfg).sleepReduction := rfl

theorem accounting_warnings (tasks : List Task) (cfg : ScheduleConfig) :
    (accounting tasks cfg).warnings =
      if (accounting tasks cfg).flexible0 < 0 ∧ (accounting tasks cfg).flexible2 < 0
      then [overAllocationWarning (accounting tasks cfg).flexible2] else [] := rfl

theorem accounting_phoneMinutes (tasks : List Task) (cfg : ScheduleConfig) :
    (accounting tasks cfg).phoneMinutes =
      if 0 < (accounting tasks cfg).flexible2 then
        mathMin (INTENSITY_CONFIG cfg.intensity).maxPhoneMinutes
          ((accounting tasks cfg).flexible2 * 0.3)
      else 0 := rfl

theorem accounting_flexible3 (tasks : List Task) (cfg : ScheduleConfig) :
    (accounting tasks cfg).flexible3 =
      if 0 < (accounting tasks cfg).flexible2 then
        (accounting tasks cfg).flexible2 - (accounting tasks cfg).phoneMinutes
      else (accounting tasks cfg).flexible2 := rfl

theorem accounting_leisureMinutes (tasks : List Task) (cfg : ScheduleConfig) :
    (accounting tasks cfg).leisureMinutes =
      if 0 < (accounting tasks cfg).flexible2 then
        mathMin (INTENSITY_CONFIG cfg.intensity).maxLeisureMinutes
          ((accounting tasks cfg).flexible3 * 0.5)
      else 0 := rfl

theorem accounting_phoneReduced (tasks : List Task) (cfg : ScheduleConfig) :
    (accounting tasks cfg).phoneReduced =
      decide (0 < (accounting tasks cfg).phoneTasks.length ∧
        (accounting tasks cfg).phoneMinutes < 30) := rfl

theorem accounting_leisureReduced (tasks : List Task) (cfg : ScheduleConfig) :
    (accounting tasks cfg).leisureReduced =
      decide (0 < (accounting tasks cfg).leisureTasks.length ∧
        (accounting tasks cfg).leisureMinutes < 30) := rfl

theorem forall2_map {α β α2 β2 : Type} {R : α → β → Prop} {S : α2 → β2 → Prop}
    (f : α → α2) (f2 : β → β2) (hfg : ∀ a b, R a b → S (f a) (f2 b))
    {l₁ : List α} {l₂ : List β} (h : List.Forall₂ R l₁ l₂) :
    List.Forall₂ S (l₁.map f) (l₂.map f2) := by
  induction h with
  | nil => simp
  | cons h1 h2 ih => exact List.Forall₂.cons (hfg _ _ h1) ih

theorem forall2_map_eq {α β γ : Type} {R : α → β → Prop} {f : α → γ} {f2 : β → γ}
    {l₁ : List α} {l₂ : List β} (h : List.Forall₂ R l₁ l₂)
    (hfg : ∀ a b, R a b → f a = f2 b) : l₁.map f = l₂.map f2 := by
  induction h with
  | nil => rfl
  | cons h1 h2 ih => simp only [List.map_cons, hfg _ _ h1, ih]

theorem forall2_filter {α : Type} {R : α → α → Prop} (p : α → Bool)
    (hR : ∀ t₁ t₂, R t₁ t₂ → p t₁ = p t₂) {l₁ l₂ : List α}
    (h : List.Forall₂ R l₁ l₂) :
    List.Forall₂ (fun a b => R a b ∧ p a = true) (l₁.filter p) (l₂.filter p) := by
  induction h with
  | nil => simp
  | @cons a b r₁ r₂ h1 h2 ih =>
    simp only [List.filter_cons]
    cases hp : p a
    · rw [← hR _ _ h1, hp]
      exact ih
    · rw [← hR _ _ h1, hp]
      exact List.Forall₂.cons ⟨h1, hp⟩ ih

theorem sched_equiv_type {t₁ t₂ : Task} (h : SchedulerEquivalent t₁ t₂) :
    t₁.type = t₂.type := h.2.2.1

theorem sched_equiv_calc {t₁ t₂ : Task} (h : SchedulerEquivalent t₁ t₂)
    (i : Intensity) : calculateWorkDuration t₁ i = calculateWorkDuration t₂ i := by
  obtain ⟨_, _, _, hmin, hmax, _⟩ := h
  unfold calculateWorkDuration
  rw [hmin, hmax]

theorem scheduleWork_congr (bd bn : ℚ) (br : Bool) {l₁ l₂ : List (Task × ℚ)}
    (h : List.Forall₂ (fun wd₁ wd₂ : Task × ℚ => wd₁.1.id = wd₂.1.id ∧
      wd₁.1.title = wd₂.1.title ∧ wd₁.1.minHours = wd₂.1.minHours ∧
      wd₁.1.maxHours = wd₂.1.maxHours ∧ wd₁.2 = wd₂.2) l₁ l₂) (st : LayoutState) :
    scheduleWork bd bn br l₁ st = scheduleWork bd bn br l₂ st := by
  induction h generalizing st with
  | nil => rfl
  | @cons a b r₁ r₂ h1 h2 ih =>
    obtain ⟨hid, htit, hmin, hmax, hd⟩ := h1
    have hempty : r₁.isEmpty = r₂.isEmpty := by cases h2 <;> rfl
    obtain ⟨t₁, d₁⟩ := a
    obtain ⟨t₂, d₂⟩ := b
    simp only [scheduleWork]
    simp only at hid htit hmin hmax hd
    rw [hid, htit, hmin, hmax, hd, hempty]
    exact ih _

theorem scheduleEssentials_congr {l₁ l₂ : List Task}
    (h : List.Forall₂ (fun t₁ t₂ : Task => t₁.id = t₂.id ∧ t₁.title = t₂.title ∧
      t₁.type = t₂.type ∧ t₁.estimatedMinutes = t₂.estimatedMinutes) l₁ l₂)
    (st : LayoutState) :
    scheduleEssentials l₁ st = scheduleEssentials l₂ st := by
  induction h generalizing st with
  | nil => rfl
  | @cons a b r₁ r₂ h1 h2 ih =>
    obtain ⟨hid, htit, hty, hest⟩ := h1
    simp only [scheduleEssentials]
    rw [hid, htit, hty, hest]
    exact ih _

theorem forall2_filter_length {α : Type} {S : α → α → Prop} (p : α → Bool)
    (hS : ∀ a b, S a b → p a = p b) {l₁ l₂ : List α} (h : List.Forall₂ S l₁ l₂) :
    (l₁.filter p).length = (l₂.filter p).length := by
  induction h with
  | nil => rfl
  | @cons a b r₁ r₂ h1 h2 ih =>
    simp only [List.filter_cons]
    rw [hS _ _ h1]
    cases p b
    · simpa using ih
    · simpa using ih

theorem head_title_congr {R : Task → Task → Prop}
    (hR : ∀ a b, R a b → a.title = b.title) (s : String) :
    ∀ {l₁ l₂ : List Task}, List.Forall₂ R l₁ l₂ →
      (match l₁ with | [] => s | t :: _ => t.title) =
        (match l₂ with | [] => s | t :: _ => t.title)
  | [], [], _ => rfl
  | a :: _, b :: _, List.Forall₂.cons h1 _ => hR a b h1

theorem sched_equiv_est_of_essOrMov {a b : Task} (hr : SchedulerEquivalent a b)
    (hp : (a.type == BlockType.essential || a.type == BlockType.movement) = true) :
    a.estimatedMinutes = b.estimatedMinutes := by
  rcases hr.2.2.2.2.2 with hww | hee
  · have hf := essOrMov_ne_work hp
    rw [hww] at hf
    simp at hf
  · exact hee

/-- C10: the scheduler never reads `isFlexible`, and never reads
`estimatedMinutes` of a work task (work durations come only from the declared
hour range or the 90-minute default): two task lists agreeing on everything
else produce identical results. -/
theorem c10_ignores_unread_fields (g : ℕ → String) (tasks1 tasks2 : List Task)
    (cfg : ScheduleConfig)
    (h : List.Forall₂ SchedulerEquivalent tasks1 tasks2) :
    generateSchedule g tasks1 cfg = generateSchedule g tasks2 cfg := by
  have hwt := forall2_filter (fun t : Task => t.type == BlockType.work)
    (fun a b hr => by simp only [sched_equiv_type hr]) h
  have het := forall2_filter
    (fun t : Task => t.type == BlockType.essential || t.type == BlockType.movement)
    (fun a b hr => by simp only [sched_equiv_type hr]) h
  have hpt := forall2_filter
    (fun t : Task => t.type == BlockType.phone || t.type == BlockType.social)
    (fun a b hr => by simp only [sched_equiv_type hr]) h
  have hlt := forall2_filter (fun t : Task => t.type == BlockType.leisure)
    (fun a b hr => by simp only [sched_equiv_type hr]) h
  have hWD : List.Forall₂ (fun wd1 wd2 : Task × ℚ => wd1.1.id = wd2.1.id ∧
      wd1.1.title = wd2.1.title ∧ wd1.1.minHours = wd2.1.minHours ∧
      wd1.1.maxHours = wd2.1.maxHours ∧ wd1.2 = wd2.2)
      ((accounting tasks1 cfg).workDurations)
      ((accounting tasks2 cfg).workDurations) := by
    rw [accounting_workDurations, accounting_workDurations]
    exact forall2_map _ _ (fun a b hr => ⟨hr.1.1, hr.1.2.1, hr.1.2.2.2.1,
      hr.1.2.2.2.2.1, sched_equiv_calc hr.1 cfg.intensity⟩) hwt
  have hESS : List.Forall₂ (fun t1 t2 : Task => t1.id = t2.id ∧
      t1.title = t2.title ∧ t1.type = t2.type ∧
      t1.estimatedMinutes = t2.estimatedMinutes)
      ((accounting tasks1 cfg).essentialTasks)
      ((accounting tasks2 cfg).essentialTasks) := by
    rw [accounting_essentialTasks, accounting_essentialTasks]
    exact List.Forall₂.imp (fun a b hr => ⟨hr.1.1, hr.1.2.1, hr.1.2.2.1,
      sched_equiv_est_of_essOrMov hr.1 hr.2⟩) het
  have hTW : (accounting tasks1 cfg).totalWorkMinutes =
      (accounting tasks2 cfg).totalWorkMinutes := by
    rw [accounting_totalWorkMinutes, accounting_totalWorkMinutes,
      forall2_map_eq hWD (fun a b hr => hr.2.2.2.2)]
  have hTE : (accounting tasks1 cfg).totalEssentialMinutes =
      (accounting tasks2 cfg).totalEssentialMinutes := by
    rw [accounting_totalEssentialMinutes, accounting_totalEssentialMinutes,
      forall2_map_eq hESS (fun a b hr => hr.2.2.2)]
  have hwlen : (accounting tasks1 cfg).workTasks.length =
      (accounting tasks2 cfg).workTasks.length := by
    rw [accounting_workTasks, accounting_workTasks]
    exact List.Forall₂.length_eq hwt
  have hB0 : (accounting tasks1 cfg).totalBreakMinutes0 =
      (accounting tasks2 cfg).totalBreakMinutes0 := by
    rw [accounting_totalBreakMinutes0, accounting_totalBreakMinutes0, hwlen]
  have hminreq : (accounting tasks1 cfg).minimumRequired =
      (accounting tasks2 cfg).minimumRequired := by
    rw [accounting_minimumRequired, accounting_minimumRequired, hTW, hTE, hB0]
  have hf0 : (accounting tasks1 cfg).flexible0 =
      (accounting tasks2 cfg).flexible0 := by
    rw [accounting_flexible0, accounting_flexible0, accounting_availableMinutes0,
      accounting_availableMinutes0, hminreq]
  have hbr : (accounting tasks1 cfg).breakReduction =
      (accounting tasks2 cfg).breakReduction := by
    rw [accounting_breakReduction, accounting_breakReduction, hf0, hB0]
  have hbred : (accounting tasks1 cfg).breaksReduced =
      (accounting tasks2 cfg).breaksReduced := by
    rw [accounting_breaksReduced, accounting_breaksReduced, hbr]
  have hf1 : (accounting tasks1 cfg).flexible1 =
      (accounting tasks2 cfg).flexible1 := by
    rw [accounting_flexible1, accounting_flexible1, hf0, hbr]
  have hsr : (accounting tasks1 cfg).sleepReduction =
      (accounting tasks2 cfg).sleepReduction := by
    rw [accounting_sleepReduction, accounting_sleepReduction, hf0, hf1]
  have hsred : (accounting tasks1 cfg).sleepReduced =
      (accounting tasks2 cfg).sleepReduced := by
    rw [accounting_sleepReduced, accounting_sleepReduced, hsr]
  have hts : (accounting tasks1 cfg).targetSleep =
      (accounting tasks2 cfg).targetSleep := by
    rw [accounting_targetSleep, accounting_targetSleep, accounting_targetSleep0,
      accounting_targetSleep0, hsr]
  have hf2 : (accounting tasks1 cfg).flexible2 =
      (accounting tasks2 cfg).flexible2 := by
    rw [accounting_flexible2, accounting_flexible2, hf1, hsr]
  have hwarn : (accounting tasks1 cfg).warnings =
      (accounting tasks2 cfg).warnings := by
    rw [accounting_warnings, accounting_warnings, hf0, hf2]
  have hpm : (accounting tasks1 cfg).phoneMinutes =
      (accounting tasks2 cfg).phoneMinutes := by
    rw [accounting_phoneMinutes, accounting_phoneMinutes, hf2]
  have hf3 : (accounting tasks1 cfg).flexible3 =
      (accounting tasks2 cfg).flexible3 := by
    rw [accounting_flexible3, accounting_flexible3, hf2, hpm]
  have hlm : (accounting tasks1 cfg).leisureMinutes =
      (accounting tasks2 cfg).leisureMinutes := by
    rw [accounting_leisureMinutes, accounting_leisureMinutes, hf2, hf3]
  have hptlen : (accounting tasks1 cfg).phoneTasks.length =
      (accounting tasks2 cfg).phoneTasks.length := by
    rw [accounting_phoneTasks, accounting_phoneTasks]
    exact List.Forall₂.length_eq hpt
  have hltlen : (accounting tasks1 cfg).leisureTasks.length =
      (accounting tasks2 cfg).leisureTasks.length := by
    rw [accounting_leisureTasks, accounting_leisureTasks]
    exact List.Forall₂.length_eq hlt
  have hpred : (accounting tasks1 cfg).phoneReduced =
      (accounting tasks2 cfg).phoneReduced := by
    rw [accounting_phoneReduced, accounting_phoneReduced, hptlen, hpm]
  have hlred : (accounting tasks1 cfg).leisureReduced =
      (accounting tasks2 cfg).leisureReduced := by
    rw [accounting_leisureReduced, accounting_leisureReduced, hltlen, hlm]
  have hwake : (accounting tasks1 cfg).wakeDate =
      (accounting tasks2 cfg).wakeDate := by
    rw [accounting_wakeDate, accounting_wakeDate]
  have hlbd : layoutBreakDuration cfg (accounting tasks1 cfg) =
      layoutBreakDuration cfg (accounting tasks2 cfg) := by
    unfold layoutBreakDuration
    rw [hbred]
  have hrlen : (accounting tasks1 cfg).rangedWorkTasks.length =
      (accounting tasks2 cfg).rangedWorkTasks.length := by
    rw [accounting_rangedWorkTasks, accounting_rangedWorkTasks]
    exact forall2_filter_length _
      (fun a b hr => by simp only [hr.2.2.1, hr.2.2.2.1]) hWD
  have hmatchP : (match (accounting tasks1 cfg).phoneTasks with
      | [] => "Phone / Social Time" | t :: _ => t.title) =
      (match (accounting tasks2 cfg).phoneTasks with
      | [] => "Phone / Social Time" | t :: _ => t.title) := by
    rw [accounting_phoneTasks, accounting_phoneTasks]
    exact head_title_congr (fun a b hr => hr.1.2.1) _ hpt
  have hmatchL : (match (accounting tasks1 cfg).leisureTasks with
      | [] => "Free Time" | t :: _ => t.title) =
      (match (accounting tasks2 cfg).leisureTasks with
      | [] => "Free Time" | t :: _ => t.title) := by
    rw [accounting_leisureTasks, accounting_leisureTasks]
    exact head_title_congr (fun a b hr => hr.1.2.1) _ hlt
  have hlay : layoutBlocks tasks1 cfg = layoutBlocks tasks2 cfg := by
    simp only [layoutBlocks]
    rw [hwake, hlbd, hbred, scheduleWork_congr _ _ _ hWD,
      scheduleEssentials_congr hESS, hts, hpm, hpred, hptlen, hmatchP, hlm,
      hlred, hltlen, hmatchL]
  have htrade : tradeoffMessages cfg (accounting tasks1 cfg) =
      tradeoffMessages cfg (accounting tasks2 cfg) := by
    cases hI : cfg.intensity
    · simp only [tradeoffMessages, hI]
      rw [hrlen]
    · simp only [tradeoffMessages, hI]
      rw [hrlen, hpred]
    · simp only [tradeoffMessages, hI]
      rw [hrlen, hbred, hpred, hptlen, hlred, hltlen, hsred, hwake, hts]
  simp only [generateSchedule]
  rw [hlay, hwake, hsred, hwarn, htrade]

/-- C10 witness: flipping `isFlexible` and changing a work task's
`estimatedMinutes` leaves the schedule unchanged. -/
theorem c10_ignores_unread_fields_witness :
    generateSchedule idGen
      [⟨"d1", "Project", BlockType.work, 90, false, some 2, some 4⟩] exCfgMedium =
    generateSchedule idGen
      [⟨"d1", "Project", BlockType.work, 45, true, some 2, some 4⟩] exCfgMedium :=
  c10_ignores_unread_fields idGen _ _ exCfgMedium
    (List.Forall₂.cons ⟨rfl, rfl, rfl, rfl, rfl, Or.inl rfl⟩ List.Forall₂.nil)

end Pace
